import Mathlib

/-!
Shallow embedding of the rgbe Game Boy emulator core (Rust) in Lean 4,
used to check the natural-language specification against the code.

Conventions of the embedding:
* Rust `u8` / `u16` values are modelled as `Nat`; every operation that in
  Rust wraps or truncates by the integer type (`wrapping_add`, `as Byte`,
  `as Word`, shifts on `u8`, ...) is modelled with an explicit `% 256`,
  `% 65536` or `&&& 0xFF` at the same place.
* Rust `i32` intermediate arithmetic (used by the CPU flag computations)
  is modelled with `Int`.
* Rust `Vec<u8>` is modelled as a length together with a contents function;
  `Vec::get(i).copied().unwrap_or(0xFF)` becomes an explicit bounds test.
* Fixed-size byte arrays that are only ever indexed in bounds are modelled
  as functions `Nat → Nat`.
* Code that panics (`proc_none`, reached only for undefined opcodes) is
  modelled by returning `none` from `Cpu.execute`.
-/

namespace Rgbe

/-- 16-bit wrapping addition (`u16::wrapping_add`). -/
def wadd16 (a b : Nat) : Nat := (a + b) % 65536

/-- 16-bit wrapping subtraction (`u16::wrapping_sub`). -/
def wsub16 (a b : Nat) : Nat := (a + 65536 - b % 65536) % 65536

/-- 8-bit wrapping addition (`u8::wrapping_add`). -/
def wadd8 (a b : Nat) : Nat := (a + b) % 256

/-- 8-bit wrapping subtraction (`u8::wrapping_sub`). -/
def wsub8 (a b : Nat) : Nat := (a + 256 - b % 256) % 256

/-- Reinterpret a byte as a sign-extended 16-bit value
(`x as i8 as i16 as u16` in the source). -/
def signExt8 (x : Nat) : Nat := if x % 256 < 128 then x % 256 else x % 256 + 0xFF00

/-- common.rs `bit`: test bit `n` of a byte value. -/
def bit (value n : Nat) : Bool := value &&& (1 <<< n) != 0

/-- common.rs `bit_set`: set or clear bit `n` of a byte value
(`!(1 << n)` on a `u8` is `0xFF ^^^ (1 <<< n)`). -/
def bit_set (value n : Nat) (b : Bool) : Nat :=
  if b then value ||| (1 <<< n) else value &&& (0xFF ^^^ (1 <<< n))

/-- cpu/registers.rs `Registers`: the eight 8-bit registers plus SP and PC. -/
structure Registers where
  a : Nat
  f : Nat
  b : Nat
  c : Nat
  d : Nat
  e : Nat
  h : Nat
  l : Nat
  pc : Nat
  sp : Nat
deriving DecidableEq

namespace Registers

/-- `Registers::new` (all zeroes, from `Default`). -/
def new : Registers := ⟨0, 0, 0, 0, 0, 0, 0, 0, 0, 0⟩

/-- `Registers::af`. -/
def af (r : Registers) : Nat := (r.a <<< 8) ||| r.f

/-- `Registers::set_af`; the low nibble of F is always forced to zero. -/
def set_af (r : Registers) (value : Nat) : Registers :=
  { r with a := (value >>> 8) &&& 0xFF, f := value &&& 0xF0 }

/-- `Registers::bc`. -/
def bc (r : Registers) : Nat := (r.b <<< 8) ||| r.c

/-- `Registers::set_bc`. -/
def set_bc (r : Registers) (value : Nat) : Registers :=
  { r with b := (value >>> 8) &&& 0xFF, c := value &&& 0xFF }

/-- `Registers::de`. -/
def de (r : Registers) : Nat := (r.d <<< 8) ||| r.e

/-- `Registers::set_de`. -/
def set_de (r : Registers) (value : Nat) : Registers :=
  { r with d := (value >>> 8) &&& 0xFF, e := value &&& 0xFF }

/-- `Registers::hl`. -/
def hl (r : Registers) : Nat := (r.h <<< 8) ||| r.l

/-- `Registers::set_hl`. -/
def set_hl (r : Registers) (value : Nat) : Registers :=
  { r with h := (value >>> 8) &&& 0xFF, l := value &&& 0xFF }

/-- `Registers::flag_z` (bit 7 of F). -/
def flag_z (r : Registers) : Bool := bit r.f 7

/-- `Registers::set_flag_z`. -/
def set_flag_z (r : Registers) (value : Bool) : Registers :=
  { r with f := bit_set r.f 7 value }

/-- `Registers::flag_n` (bit 6 of F). -/
def flag_n (r : Registers) : Bool := bit r.f 6

/-- `Registers::set_flag_n`. -/
def set_flag_n (r : Registers) (value : Bool) : Registers :=
  { r with f := bit_set r.f 6 value }

/-- `Registers::flag_h` (bit 5 of F). -/
def flag_h (r : Registers) : Bool := bit r.f 5

/-- `Registers::set_flag_h`. -/
def set_flag_h (r : Registers) (value : Bool) : Registers :=
  { r with f := bit_set r.f 5 value }

/-- `Registers::flag_c` (bit 4 of F). -/
def flag_c (r : Registers) : Bool := bit r.f 4

/-- `Registers::set_flag_c`. -/
def set_flag_c (r : Registers) (value : Bool) : Registers :=
  { r with f := bit_set r.f 4 value }

/-- `Registers::set_flags`: set all four flags at once. -/
def set_flags (r : Registers) (z n h c : Bool) : Registers :=
  (((r.set_flag_z z).set_flag_n n).set_flag_h h).set_flag_c c

end Registers

/-- cpu/instructions.rs `InstructionType`. -/
inductive InstructionType where
  | None | Nop | Ld | Inc | Dec | Rlca | Add | Rrca | Stop | Rla | Jr | Rra
  | Daa | Cpl | Scf | Ccf | Halt | Adc | Sub | Sbc | And | Xor | Or | Cp
  | Pop | Jp | Push | Ret | Cb | Call | Reti | Ldh | Di | Ei | Rst
  | Rlc | Rrc | Rl | Rr | Sla | Sra | Swap | Srl | Bit | Res | Set
deriving DecidableEq

/-- cpu/instructions.rs `AddressingMode`. -/
inductive AddressingMode where
  | Implied | Register | RegisterRegister | MemoryRegister | RegisterMemory
  | RegisterD8 | RegisterD16 | RegisterA8 | RegisterA16 | A8Register
  | A16Register | MemoryRegisterD8 | HliRegister | HldRegister | RegisterHli
  | RegisterHld | HlSpr | D8 | D16 | MemoryRegisterOnly
deriving DecidableEq

/-- cpu/instructions.rs `RegisterType`. -/
inductive RegisterType where
  | None | A | F | B | C | D | E | H | L | Af | Bc | De | Hl | Sp | Pc
deriving DecidableEq

/-- cpu/instructions.rs `ConditionType`. -/
inductive ConditionType where
  | None | Nz | Z | Nc | C
deriving DecidableEq

/-- cpu/instructions.rs `Instruction` descriptor record. -/
structure Instruction where
  inst_type : InstructionType
  mode : AddressingMode
  reg1 : RegisterType
  reg2 : RegisterType
  cond : ConditionType
  param : Nat
deriving DecidableEq

/-- Helper mirroring the `inst!` / `cb_inst!` macros of the source. -/
def mkInst (t : InstructionType) (m : AddressingMode) (r1 r2 : RegisterType)
    (c : ConditionType) (p : Nat) : Instruction :=
  ⟨t, m, r1, r2, c, p⟩

/-- `Instruction::new`: the sentinel "undefined opcode" descriptor. -/
def Instruction.new : Instruction :=
  mkInst .None .Implied .None .None .None 0

/-- cpu/instructions.rs `INSTRUCTIONS`: the 256-entry primary decode table. -/
def INSTRUCTIONS : List Instruction := [
  mkInst .Nop .Implied .None .None .None 0,  -- 0x00
  mkInst .Ld .RegisterD16 .Bc .None .None 0,  -- 0x01
  mkInst .Ld .MemoryRegister .Bc .A .None 0,  -- 0x02
  mkInst .Inc .Register .Bc .None .None 0,  -- 0x03
  mkInst .Inc .Register .B .None .None 0,  -- 0x04
  mkInst .Dec .Register .B .None .None 0,  -- 0x05
  mkInst .Ld .RegisterD8 .B .None .None 0,  -- 0x06
  mkInst .Rlca .Implied .None .None .None 0,  -- 0x07
  mkInst .Ld .A16Register .None .Sp .None 0,  -- 0x08
  mkInst .Add .RegisterRegister .Hl .Bc .None 0,  -- 0x09
  mkInst .Ld .RegisterMemory .A .Bc .None 0,  -- 0x0A
  mkInst .Dec .Register .Bc .None .None 0,  -- 0x0B
  mkInst .Inc .Register .C .None .None 0,  -- 0x0C
  mkInst .Dec .Register .C .None .None 0,  -- 0x0D
  mkInst .Ld .RegisterD8 .C .None .None 0,  -- 0x0E
  mkInst .Rrca .Implied .None .None .None 0,  -- 0x0F
  mkInst .Stop .Implied .None .None .None 0,  -- 0x10
  mkInst .Ld .RegisterD16 .De .None .None 0,  -- 0x11
  mkInst .Ld .MemoryRegister .De .A .None 0,  -- 0x12
  mkInst .Inc .Register .De .None .None 0,  -- 0x13
  mkInst .Inc .Register .D .None .None 0,  -- 0x14
  mkInst .Dec .Register .D .None .None 0,  -- 0x15
  mkInst .Ld .RegisterD8 .D .None .None 0,  -- 0x16
  mkInst .Rla .Implied .None .None .None 0,  -- 0x17
  mkInst .Jr .D8 .None .None .None 0,  -- 0x18
  mkInst .Add .RegisterRegister .Hl .De .None 0,  -- 0x19
  mkInst .Ld .RegisterMemory .A .De .None 0,  -- 0x1A
  mkInst .Dec .Register .De .None .None 0,  -- 0x1B
  mkInst .Inc .Register .E .None .None 0,  -- 0x1C
  mkInst .Dec .Register .E .None .None 0,  -- 0x1D
  mkInst .Ld .RegisterD8 .E .None .None 0,  -- 0x1E
  mkInst .Rra .Implied .None .None .None 0,  -- 0x1F
  mkInst .Jr .D8 .None .None .Nz 0,  -- 0x20
  mkInst .Ld .RegisterD16 .Hl .None .None 0,  -- 0x21
  mkInst .Ld .HliRegister .Hl .A .None 0,  -- 0x22
  mkInst .Inc .Register .Hl .None .None 0,  -- 0x23
  mkInst .Inc .Register .H .None .None 0,  -- 0x24
  mkInst .Dec .Register .H .None .None 0,  -- 0x25
  mkInst .Ld .RegisterD8 .H .None .None 0,  -- 0x26
  mkInst .Daa .Implied .None .None .None 0,  -- 0x27
  mkInst .Jr .D8 .None .None .Z 0,  -- 0x28
  mkInst .Add .RegisterRegister .Hl .Hl .None 0,  -- 0x29
  mkInst .Ld .RegisterHli .A .Hl .None 0,  -- 0x2A
  mkInst .Dec .Register .Hl .None .None 0,  -- 0x2B
  mkInst .Inc .Register .L .None .None 0,  -- 0x2C
  mkInst .Dec .Register .L .None .None 0,  -- 0x2D
  mkInst .Ld .RegisterD8 .L .None .None 0,  -- 0x2E
  mkInst .Cpl .Implied .None .None .None 0,  -- 0x2F
  mkInst .Jr .D8 .None .None .Nc 0,  -- 0x30
  mkInst .Ld .RegisterD16 .Sp .None .None 0,  -- 0x31
  mkInst .Ld .HldRegister .Hl .A .None 0,  -- 0x32
  mkInst .Inc .Register .Sp .None .None 0,  -- 0x33
  mkInst .Inc .MemoryRegisterOnly .Hl .None .None 0,  -- 0x34
  mkInst .Dec .MemoryRegisterOnly .Hl .None .None 0,  -- 0x35
  mkInst .Ld .MemoryRegisterD8 .Hl .None .None 0,  -- 0x36
  mkInst .Scf .Implied .None .None .None 0,  -- 0x37
  mkInst .Jr .D8 .None .None .C 0,  -- 0x38
  mkInst .Add .RegisterRegister .Hl .Sp .None 0,  -- 0x39
  mkInst .Ld .RegisterHld .A .Hl .None 0,  -- 0x3A
  mkInst .Dec .Register .Sp .None .None 0,  -- 0x3B
  mkInst .Inc .Register .A .None .None 0,  -- 0x3C
  mkInst .Dec .Register .A .None .None 0,  -- 0x3D
  mkInst .Ld .RegisterD8 .A .None .None 0,  -- 0x3E
  mkInst .Ccf .Implied .None .None .None 0,  -- 0x3F
  mkInst .Ld .RegisterRegister .B .B .None 0,  -- 0x40
  mkInst .Ld .RegisterRegister .B .C .None 0,  -- 0x41
  mkInst .Ld .RegisterRegister .B .D .None 0,  -- 0x42
  mkInst .Ld .RegisterRegister .B .E .None 0,  -- 0x43
  mkInst .Ld .RegisterRegister .B .H .None 0,  -- 0x44
  mkInst .Ld .RegisterRegister .B .L .None 0,  -- 0x45
  mkInst .Ld .RegisterMemory .B .Hl .None 0,  -- 0x46
  mkInst .Ld .RegisterRegister .B .A .None 0,  -- 0x47
  mkInst .Ld .RegisterRegister .C .B .None 0,  -- 0x48
  mkInst .Ld .RegisterRegister .C .C .None 0,  -- 0x49
  mkInst .Ld .RegisterRegister .C .D .None 0,  -- 0x4A
  mkInst .Ld .RegisterRegister .C .E .None 0,  -- 0x4B
  mkInst .Ld .RegisterRegister .C .H .None 0,  -- 0x4C
  mkInst .Ld .RegisterRegister .C .L .None 0,  -- 0x4D
  mkInst .Ld .RegisterMemory .C .Hl .None 0,  -- 0x4E
  mkInst .Ld .RegisterRegister .C .A .None 0,  -- 0x4F
  mkInst .Ld .RegisterRegister .D .B .None 0,  -- 0x50
  mkInst .Ld .RegisterRegister .D .C .None 0,  -- 0x51
  mkInst .Ld .RegisterRegister .D .D .None 0,  -- 0x52
  mkInst .Ld .RegisterRegister .D .E .None 0,  -- 0x53
  mkInst .Ld .RegisterRegister .D .H .None 0,  -- 0x54
  mkInst .Ld .RegisterRegister .D .L .None 0,  -- 0x55
  mkInst .Ld .RegisterMemory .D .Hl .None 0,  -- 0x56
  mkInst .Ld .RegisterRegister .D .A .None 0,  -- 0x57
  mkInst .Ld .RegisterRegister .E .B .None 0,  -- 0x58
  mkInst .Ld .RegisterRegister .E .C .None 0,  -- 0x59
  mkInst .Ld .RegisterRegister .E .D .None 0,  -- 0x5A
  mkInst .Ld .RegisterRegister .E .E .None 0,  -- 0x5B
  mkInst .Ld .RegisterRegister .E .H .None 0,  -- 0x5C
  mkInst .Ld .RegisterRegister .E .L .None 0,  -- 0x5D
  mkInst .Ld .RegisterMemory .E .Hl .None 0,  -- 0x5E
  mkInst .Ld .RegisterRegister .E .A .None 0,  -- 0x5F
  mkInst .Ld .RegisterRegister .H .B .None 0,  -- 0x60
  mkInst .Ld .RegisterRegister .H .C .None 0,  -- 0x61
  mkInst .Ld .RegisterRegister .H .D .None 0,  -- 0x62
  mkInst .Ld .RegisterRegister .H .E .None 0,  -- 0x63
  mkInst .Ld .RegisterRegister .H .H .None 0,  -- 0x64
  mkInst .Ld .RegisterRegister .H .L .None 0,  -- 0x65
  mkInst .Ld .RegisterMemory .H .Hl .None 0,  -- 0x66
  mkInst .Ld .RegisterRegister .H .A .None 0,  -- 0x67
  mkInst .Ld .RegisterRegister .L .B .None 0,  -- 0x68
  mkInst .Ld .RegisterRegister .L .C .None 0,  -- 0x69
  mkInst .Ld .RegisterRegister .L .D .None 0,  -- 0x6A
  mkInst .Ld .RegisterRegister .L .E .None 0,  -- 0x6B
  mkInst .Ld .RegisterRegister .L .H .None 0,  -- 0x6C
  mkInst .Ld .RegisterRegister .L .L .None 0,  -- 0x6D
  mkInst .Ld .RegisterMemory .L .Hl .None 0,  -- 0x6E
  mkInst .Ld .RegisterRegister .L .A .None 0,  -- 0x6F
  mkInst .Ld .MemoryRegister .Hl .B .None 0,  -- 0x70
  mkInst .Ld .MemoryRegister .Hl .C .None 0,  -- 0x71
  mkInst .Ld .MemoryRegister .Hl .D .None 0,  -- 0x72
  mkInst .Ld .MemoryRegister .Hl .E .None 0,  -- 0x73
  mkInst .Ld .MemoryRegister .Hl .H .None 0,  -- 0x74
  mkInst .Ld .MemoryRegister .Hl .L .None 0,  -- 0x75
  mkInst .Halt .Implied .None .None .None 0,  -- 0x76
  mkInst .Ld .MemoryRegister .Hl .A .None 0,  -- 0x77
  mkInst .Ld .RegisterRegister .A .B .None 0,  -- 0x78
  mkInst .Ld .RegisterRegister .A .C .None 0,  -- 0x79
  mkInst .Ld .RegisterRegister .A .D .None 0,  -- 0x7A
  mkInst .Ld .RegisterRegister .A .E .None 0,  -- 0x7B
  mkInst .Ld .RegisterRegister .A .H .None 0,  -- 0x7C
  mkInst .Ld .RegisterRegister .A .L .None 0,  -- 0x7D
  mkInst .Ld .RegisterMemory .A .Hl .None 0,  -- 0x7E
  mkInst .Ld .RegisterRegister .A .A .None 0,  -- 0x7F
  mkInst .Add .RegisterRegister .A .B .None 0,  -- 0x80
  mkInst .Add .RegisterRegister .A .C .None 0,  -- 0x81
  mkInst .Add .RegisterRegister .A .D .None 0,  -- 0x82
  mkInst .Add .RegisterRegister .A .E .None 0,  -- 0x83
  mkInst .Add .RegisterRegister .A .H .None 0,  -- 0x84
  mkInst .Add .RegisterRegister .A .L .None 0,  -- 0x85
  mkInst .Add .RegisterMemory .A .Hl .None 0,  -- 0x86
  mkInst .Add .RegisterRegister .A .A .None 0,  -- 0x87
  mkInst .Adc .RegisterRegister .A .B .None 0,  -- 0x88
  mkInst .Adc .RegisterRegister .A .C .None 0,  -- 0x89
  mkInst .Adc .RegisterRegister .A .D .None 0,  -- 0x8A
  mkInst .Adc .RegisterRegister .A .E .None 0,  -- 0x8B
  mkInst .Adc .RegisterRegister .A .H .None 0,  -- 0x8C
  mkInst .Adc .RegisterRegister .A .L .None 0,  -- 0x8D
  mkInst .Adc .RegisterMemory .A .Hl .None 0,  -- 0x8E
  mkInst .Adc .RegisterRegister .A .A .None 0,  -- 0x8F
  mkInst .Sub .RegisterRegister .A .B .None 0,  -- 0x90
  mkInst .Sub .RegisterRegister .A .C .None 0,  -- 0x91
  mkInst .Sub .RegisterRegister .A .D .None 0,  -- 0x92
  mkInst .Sub .RegisterRegister .A .E .None 0,  -- 0x93
  mkInst .Sub .RegisterRegister .A .H .None 0,  -- 0x94
  mkInst .Sub .RegisterRegister .A .L .None 0,  -- 0x95
  mkInst .Sub .RegisterMemory .A .Hl .None 0,  -- 0x96
  mkInst .Sub .RegisterRegister .A .A .None 0,  -- 0x97
  mkInst .Sbc .RegisterRegister .A .B .None 0,  -- 0x98
  mkInst .Sbc .RegisterRegister .A .C .None 0,  -- 0x99
  mkInst .Sbc .RegisterRegister .A .D .None 0,  -- 0x9A
  mkInst .Sbc .RegisterRegister .A .E .None 0,  -- 0x9B
  mkInst .Sbc .RegisterRegister .A .H .None 0,  -- 0x9C
  mkInst .Sbc .RegisterRegister .A .L .None 0,  -- 0x9D
  mkInst .Sbc .RegisterMemory .A .Hl .None 0,  -- 0x9E
  mkInst .Sbc .RegisterRegister .A .A .None 0,  -- 0x9F
  mkInst .And .RegisterRegister .A .B .None 0,  -- 0xA0
  mkInst .And .RegisterRegister .A .C .None 0,  -- 0xA1
  mkInst .And .RegisterRegister .A .D .None 0,  -- 0xA2
  mkInst .And .RegisterRegister .A .E .None 0,  -- 0xA3
  mkInst .And .RegisterRegister .A .H .None 0,  -- 0xA4
  mkInst .And .RegisterRegister .A .L .None 0,  -- 0xA5
  mkInst .And .RegisterMemory .A .Hl .None 0,  -- 0xA6
  mkInst .And .RegisterRegister .A .A .None 0,  -- 0xA7
  mkInst .Xor .RegisterRegister .A .B .None 0,  -- 0xA8
  mkInst .Xor .RegisterRegister .A .C .None 0,  -- 0xA9
  mkInst .Xor .RegisterRegister .A .D .None 0,  -- 0xAA
  mkInst .Xor .RegisterRegister .A .E .None 0,  -- 0xAB
  mkInst .Xor .RegisterRegister .A .H .None 0,  -- 0xAC
  mkInst .Xor .RegisterRegister .A .L .None 0,  -- 0xAD
  mkInst .Xor .RegisterMemory .A .Hl .None 0,  -- 0xAE
  mkInst .Xor .RegisterRegister .A .A .None 0,  -- 0xAF
  mkInst .Or .RegisterRegister .A .B .None 0,  -- 0xB0
  mkInst .Or .RegisterRegister .A .C .None 0,  -- 0xB1
  mkInst .Or .RegisterRegister .A .D .None 0,  -- 0xB2
  mkInst .Or .RegisterRegister .A .E .None 0,  -- 0xB3
  mkInst .Or .RegisterRegister .A .H .None 0,  -- 0xB4
  mkInst .Or .RegisterRegister .A .L .None 0,  -- 0xB5
  mkInst .Or .RegisterMemory .A .Hl .None 0,  -- 0xB6
  mkInst .Or .RegisterRegister .A .A .None 0,  -- 0xB7
  mkInst .Cp .RegisterRegister .A .B .None 0,  -- 0xB8
  mkInst .Cp .RegisterRegister .A .C .None 0,  -- 0xB9
  mkInst .Cp .RegisterRegister .A .D .None 0,  -- 0xBA
  mkInst .Cp .RegisterRegister .A .E .None 0,  -- 0xBB
  mkInst .Cp .RegisterRegister .A .H .None 0,  -- 0xBC
  mkInst .Cp .RegisterRegister .A .L .None 0,  -- 0xBD
  mkInst .Cp .RegisterMemory .A .Hl .None 0,  -- 0xBE
  mkInst .Cp .RegisterRegister .A .A .None 0,  -- 0xBF
  mkInst .Ret .Implied .None .None .Nz 0,  -- 0xC0
  mkInst .Pop .Register .Bc .None .None 0,  -- 0xC1
  mkInst .Jp .D16 .None .None .Nz 0,  -- 0xC2
  mkInst .Jp .D16 .None .None .None 0,  -- 0xC3
  mkInst .Call .D16 .None .None .Nz 0,  -- 0xC4
  mkInst .Push .Register .Bc .None .None 0,  -- 0xC5
  mkInst .Add .RegisterD8 .A .None .None 0,  -- 0xC6
  mkInst .Rst .Implied .None .None .None 0x00,  -- 0xC7
  mkInst .Ret .Implied .None .None .Z 0,  -- 0xC8
  mkInst .Ret .Implied .None .None .None 0,  -- 0xC9
  mkInst .Jp .D16 .None .None .Z 0,  -- 0xCA
  mkInst .Cb .D8 .None .None .None 0,  -- 0xCB
  mkInst .Call .D16 .None .None .Z 0,  -- 0xCC
  mkInst .Call .D16 .None .None .None 0,  -- 0xCD
  mkInst .Adc .RegisterD8 .A .None .None 0,  -- 0xCE
  mkInst .Rst .Implied .None .None .None 0x08,  -- 0xCF
  mkInst .Ret .Implied .None .None .Nc 0,  -- 0xD0
  mkInst .Pop .Register .De .None .None 0,  -- 0xD1
  mkInst .Jp .D16 .None .None .Nc 0,  -- 0xD2
  mkInst .None .Implied .None .None .None 0,  -- 0xD3
  mkInst .Call .D16 .None .None .Nc 0,  -- 0xD4
  mkInst .Push .Register .De .None .None 0,  -- 0xD5
  mkInst .Sub .RegisterD8 .A .None .None 0,  -- 0xD6
  mkInst .Rst .Implied .None .None .None 0x10,  -- 0xD7
  mkInst .Ret .Implied .None .None .C 0,  -- 0xD8
  mkInst .Reti .Implied .None .None .None 0,  -- 0xD9
  mkInst .Jp .D16 .None .None .C 0,  -- 0xDA
  mkInst .None .Implied .None .None .None 0,  -- 0xDB
  mkInst .Call .D16 .None .None .C 0,  -- 0xDC
  mkInst .None .Implied .None .None .None 0,  -- 0xDD
  mkInst .Sbc .RegisterD8 .A .None .None 0,  -- 0xDE
  mkInst .Rst .Implied .None .None .None 0x18,  -- 0xDF
  mkInst .Ldh .A8Register .None .A .None 0,  -- 0xE0
  mkInst .Pop .Register .Hl .None .None 0,  -- 0xE1
  mkInst .Ld .MemoryRegister .C .A .None 0,  -- 0xE2
  mkInst .None .Implied .None .None .None 0,  -- 0xE3
  mkInst .None .Implied .None .None .None 0,  -- 0xE4
  mkInst .Push .Register .Hl .None .None 0,  -- 0xE5
  mkInst .And .RegisterD8 .A .None .None 0,  -- 0xE6
  mkInst .Rst .Implied .None .None .None 0x20,  -- 0xE7
  mkInst .Add .RegisterD8 .Sp .None .None 0,  -- 0xE8
  mkInst .Jp .Register .Hl .None .None 0,  -- 0xE9
  mkInst .Ld .A16Register .None .A .None 0,  -- 0xEA
  mkInst .None .Implied .None .None .None 0,  -- 0xEB
  mkInst .None .Implied .None .None .None 0,  -- 0xEC
  mkInst .None .Implied .None .None .None 0,  -- 0xED
  mkInst .Xor .RegisterD8 .A .None .None 0,  -- 0xEE
  mkInst .Rst .Implied .None .None .None 0x28,  -- 0xEF
  mkInst .Ldh .RegisterA8 .A .None .None 0,  -- 0xF0
  mkInst .Pop .Register .Af .None .None 0,  -- 0xF1
  mkInst .Ld .RegisterMemory .A .C .None 0,  -- 0xF2
  mkInst .Di .Implied .None .None .None 0,  -- 0xF3
  mkInst .None .Implied .None .None .None 0,  -- 0xF4
  mkInst .Push .Register .Af .None .None 0,  -- 0xF5
  mkInst .Or .RegisterD8 .A .None .None 0,  -- 0xF6
  mkInst .Rst .Implied .None .None .None 0x30,  -- 0xF7
  mkInst .Ld .HlSpr .Hl .Sp .None 0,  -- 0xF8
  mkInst .Ld .RegisterRegister .Sp .Hl .None 0,  -- 0xF9
  mkInst .Ld .RegisterA16 .A .None .None 0,  -- 0xFA
  mkInst .Ei .Implied .None .None .None 0,  -- 0xFB
  mkInst .None .Implied .None .None .None 0,  -- 0xFC
  mkInst .None .Implied .None .None .None 0,  -- 0xFD
  mkInst .Cp .RegisterD8 .A .None .None 0,  -- 0xFE
  mkInst .Rst .Implied .None .None .None 0x38  -- 0xFF
]

/-- cpu/instructions.rs `instruction_by_opcode` (opcodes are bytes, so the
out-of-range default is never consulted). -/
def instruction_by_opcode (opcode : Nat) : Instruction :=
  INSTRUCTIONS.getD opcode Instruction.new

/-- cpu/instructions.rs `CB_INSTRUCTIONS`: the 256-entry 0xCB extension table. -/
def CB_INSTRUCTIONS : List Instruction := [
  mkInst .Rlc .Register .B .None .None 0,  -- 0x00
  mkInst .Rlc .Register .C .None .None 0,  -- 0x01
  mkInst .Rlc .Register .D .None .None 0,  -- 0x02
  mkInst .Rlc .Register .E .None .None 0,  -- 0x03
  mkInst .Rlc .Register .H .None .None 0,  -- 0x04
  mkInst .Rlc .Register .L .None .None 0,  -- 0x05
  mkInst .Rlc .MemoryRegisterOnly .Hl .None .None 0,  -- 0x06
  mkInst .Rlc .Register .A .None .None 0,  -- 0x07
  mkInst .Rrc .Register .B .None .None 0,  -- 0x08
  mkInst .Rrc .Register .C .None .None 0,  -- 0x09
  mkInst .Rrc .Register .D .None .None 0,  -- 0x0A
  mkInst .Rrc .Register .E .None .None 0,  -- 0x0B
  mkInst .Rrc .Register .H .None .None 0,  -- 0x0C
  mkInst .Rrc .Register .L .None .None 0,  -- 0x0D
  mkInst .Rrc .MemoryRegisterOnly .Hl .None .None 0,  -- 0x0E
  mkInst .Rrc .Register .A .None .None 0,  -- 0x0F
  mkInst .Rl .Register .B .None .None 0,  -- 0x10
  mkInst .Rl .Register .C .None .None 0,  -- 0x11
  mkInst .Rl .Register .D .None .None 0,  -- 0x12
  mkInst .Rl .Register .E .None .None 0,  -- 0x13
  mkInst .Rl .Register .H .None .None 0,  -- 0x14
  mkInst .Rl .Register .L .None .None 0,  -- 0x15
  mkInst .Rl .MemoryRegisterOnly .Hl .None .None 0,  -- 0x16
  mkInst .Rl .Register .A .None .None 0,  -- 0x17
  mkInst .Rr .Register .B .None .None 0,  -- 0x18
  mkInst .Rr .Register .C .None .None 0,  -- 0x19
  mkInst .Rr .Register .D .None .None 0,  -- 0x1A
  mkInst .Rr .Register .E .None .None 0,  -- 0x1B
  mkInst .Rr .Register .H .None .None 0,  -- 0x1C
  mkInst .Rr .Register .L .None .None 0,  -- 0x1D
  mkInst .Rr .MemoryRegisterOnly .Hl .None .None 0,  -- 0x1E
  mkInst .Rr .Register .A .None .None 0,  -- 0x1F
  mkInst .Sla .Register .B .None .None 0,  -- 0x20
  mkInst .Sla .Register .C .None .None 0,  -- 0x21
  mkInst .Sla .Register .D .None .None 0,  -- 0x22
  mkInst .Sla .Register .E .None .None 0,  -- 0x23
  mkInst .Sla .Register .H .None .None 0,  -- 0x24
  mkInst .Sla .Register .L .None .None 0,  -- 0x25
  mkInst .Sla .MemoryRegisterOnly .Hl .None .None 0,  -- 0x26
  mkInst .Sla .Register .A .None .None 0,  -- 0x27
  mkInst .Sra .Register .B .None .None 0,  -- 0x28
  mkInst .Sra .Register .C .None .None 0,  -- 0x29
  mkInst .Sra .Register .D .None .None 0,  -- 0x2A
  mkInst .Sra .Register .E .None .None 0,  -- 0x2B
  mkInst .Sra .Register .H .None .None 0,  -- 0x2C
  mkInst .Sra .Register .L .None .None 0,  -- 0x2D
  mkInst .Sra .MemoryRegisterOnly .Hl .None .None 0,  -- 0x2E
  mkInst .Sra .Register .A .None .None 0,  -- 0x2F
  mkInst .Swap .Register .B .None .None 0,  -- 0x30
  mkInst .Swap .Register .C .None .None 0,  -- 0x31
  mkInst .Swap .Register .D .None .None 0,  -- 0x32
  mkInst .Swap .Register .E .None .None 0,  -- 0x33
  mkInst .Swap .Register .H .None .None 0,  -- 0x34
  mkInst .Swap .Register .L .None .None 0,  -- 0x35
  mkInst .Swap .MemoryRegisterOnly .Hl .None .None 0,  -- 0x36
  mkInst .Swap .Register .A .None .None 0,  -- 0x37
  mkInst .Srl .Register .B .None .None 0,  -- 0x38
  mkInst .Srl .Register .C .None .None 0,  -- 0x39
  mkInst .Srl .Register .D .None .None 0,  -- 0x3A
  mkInst .Srl .Register .E .None .None 0,  -- 0x3B
  mkInst .Srl .Register .H .None .None 0,  -- 0x3C
  mkInst .Srl .Register .L .None .None 0,  -- 0x3D
  mkInst .Srl .MemoryRegisterOnly .Hl .None .None 0,  -- 0x3E
  mkInst .Srl .Register .A .None .None 0,  -- 0x3F
  mkInst .Bit .Register .B .None .None 0,  -- 0x40
  mkInst .Bit .Register .C .None .None 0,  -- 0x41
  mkInst .Bit .Register .D .None .None 0,  -- 0x42
  mkInst .Bit .Register .E .None .None 0,  -- 0x43
  mkInst .Bit .Register .H .None .None 0,  -- 0x44
  mkInst .Bit .Register .L .None .None 0,  -- 0x45
  mkInst .Bit .MemoryRegisterOnly .Hl .None .None 0,  -- 0x46
  mkInst .Bit .Register .A .None .None 0,  -- 0x47
  mkInst .Bit .Register .B .None .None 1,  -- 0x48
  mkInst .Bit .Register .C .None .None 1,  -- 0x49
  mkInst .Bit .Register .D .None .None 1,  -- 0x4A
  mkInst .Bit .Register .E .None .None 1,  -- 0x4B
  mkInst .Bit .Register .H .None .None 1,  -- 0x4C
  mkInst .Bit .Register .L .None .None 1,  -- 0x4D
  mkInst .Bit .MemoryRegisterOnly .Hl .None .None 1,  -- 0x4E
  mkInst .Bit .Register .A .None .None 1,  -- 0x4F
  mkInst .Bit .Register .B .None .None 2,  -- 0x50
  mkInst .Bit .Register .C .None .None 2,  -- 0x51
  mkInst .Bit .Register .D .None .None 2,  -- 0x52
  mkInst .Bit .Register .E .None .None 2,  -- 0x53
  mkInst .Bit .Register .H .None .None 2,  -- 0x54
  mkInst .Bit .Register .L .None .None 2,  -- 0x55
  mkInst .Bit .MemoryRegisterOnly .Hl .None .None 2,  -- 0x56
  mkInst .Bit .Register .A .None .None 2,  -- 0x57
  mkInst .Bit .Register .B .None .None 3,  -- 0x58
  mkInst .Bit .Register .C .None .None 3,  -- 0x59
  mkInst .Bit .Register .D .None .None 3,  -- 0x5A
  mkInst .Bit .Register .E .None .None 3,  -- 0x5B
  mkInst .Bit .Register .H .None .None 3,  -- 0x5C
  mkInst .Bit .Register .L .None .None 3,  -- 0x5D
  mkInst .Bit .MemoryRegisterOnly .Hl .None .None 3,  -- 0x5E
  mkInst .Bit .Register .A .None .None 3,  -- 0x5F
  mkInst .Bit .Register .B .None .None 4,  -- 0x60
  mkInst .Bit .Register .C .None .None 4,  -- 0x61
  mkInst .Bit .Register .D .None .None 4,  -- 0x62
  mkInst .Bit .Register .E .None .None 4,  -- 0x63
  mkInst .Bit .Register .H .None .None 4,  -- 0x64
  mkInst .Bit .Register .L .None .None 4,  -- 0x65
  mkInst .Bit .MemoryRegisterOnly .Hl .None .None 4,  -- 0x66
  mkInst .Bit .Register .A .None .None 4,  -- 0x67
  mkInst .Bit .Register .B .None .None 5,  -- 0x68
  mkInst .Bit .Register .C .None .None 5,  -- 0x69
  mkInst .Bit .Register .D .None .None 5,  -- 0x6A
  mkInst .Bit .Register .E .None .None 5,  -- 0x6B
  mkInst .Bit .Register .H .None .None 5,  -- 0x6C
  mkInst .Bit .Register .L .None .None 5,  -- 0x6D
  mkInst .Bit .MemoryRegisterOnly .Hl .None .None 5,  -- 0x6E
  mkInst .Bit .Register .A .None .None 5,  -- 0x6F
  mkInst .Bit .Register .B .None .None 6,  -- 0x70
  mkInst .Bit .Register .C .None .None 6,  -- 0x71
  mkInst .Bit .Register .D .None .None 6,  -- 0x72
  mkInst .Bit .Register .E .None .None 6,  -- 0x73
  mkInst .Bit .Register .H .None .None 6,  -- 0x74
  mkInst .Bit .Register .L .None .None 6,  -- 0x75
  mkInst .Bit .MemoryRegisterOnly .Hl .None .None 6,  -- 0x76
  mkInst .Bit .Register .A .None .None 6,  -- 0x77
  mkInst .Bit .Register .B .None .None 7,  -- 0x78
  mkInst .Bit .Register .C .None .None 7,  -- 0x79
  mkInst .Bit .Register .D .None .None 7,  -- 0x7A
  mkInst .Bit .Register .E .None .None 7,  -- 0x7B
  mkInst .Bit .Register .H .None .None 7,  -- 0x7C
  mkInst .Bit .Register .L .None .None 7,  -- 0x7D
  mkInst .Bit .MemoryRegisterOnly .Hl .None .None 7,  -- 0x7E
  mkInst .Bit .Register .A .None .None 7,  -- 0x7F
  mkInst .Res .Register .B .None .None 0,  -- 0x80
  mkInst .Res .Register .C .None .None 0,  -- 0x81
  mkInst .Res .Register .D .None .None 0,  -- 0x82
  mkInst .Res .Register .E .None .None 0,  -- 0x83
  mkInst .Res .Register .H .None .None 0,  -- 0x84
  mkInst .Res .Register .L .None .None 0,  -- 0x85
  mkInst .Res .MemoryRegisterOnly .Hl .None .None 0,  -- 0x86
  mkInst .Res .Register .A .None .None 0,  -- 0x87
  mkInst .Res .Register .B .None .None 1,  -- 0x88
  mkInst .Res .Register .C .None .None 1,  -- 0x89
  mkInst .Res .Register .D .None .None 1,  -- 0x8A
  mkInst .Res .Register .E .None .None 1,  -- 0x8B
  mkInst .Res .Register .H .None .None 1,  -- 0x8C
  mkInst .Res .Register .L .None .None 1,  -- 0x8D
  mkInst .Res .MemoryRegisterOnly .Hl .None .None 1,  -- 0x8E
  mkInst .Res .Register .A .None .None 1,  -- 0x8F
  mkInst .Res .Register .B .None .None 2,  -- 0x90
  mkInst .Res .Register .C .None .None 2,  -- 0x91
  mkInst .Res .Register .D .None .None 2,  -- 0x92
  mkInst .Res .Register .E .None .None 2,  -- 0x93
  mkInst .Res .Register .H .None .None 2,  -- 0x94
  mkInst .Res .Register .L .None .None 2,  -- 0x95
  mkInst .Res .MemoryRegisterOnly .Hl .None .None 2,  -- 0x96
  mkInst .Res .Register .A .None .None 2,  -- 0x97
  mkInst .Res .Register .B .None .None 3,  -- 0x98
  mkInst .Res .Register .C .None .None 3,  -- 0x99
  mkInst .Res .Register .D .None .None 3,  -- 0x9A
  mkInst .Res .Register .E .None .None 3,  -- 0x9B
  mkInst .Res .Register .H .None .None 3,  -- 0x9C
  mkInst .Res .Register .L .None .None 3,  -- 0x9D
  mkInst .Res .MemoryRegisterOnly .Hl .None .None 3,  -- 0x9E
  mkInst .Res .Register .A .None .None 3,  -- 0x9F
  mkInst .Res .Register .B .None .None 4,  -- 0xA0
  mkInst .Res .Register .C .None .None 4,  -- 0xA1
  mkInst .Res .Register .D .None .None 4,  -- 0xA2
  mkInst .Res .Register .E .None .None 4,  -- 0xA3
  mkInst .Res .Register .H .None .None 4,  -- 0xA4
  mkInst .Res .Register .L .None .None 4,  -- 0xA5
  mkInst .Res .MemoryRegisterOnly .Hl .None .None 4,  -- 0xA6
  mkInst .Res .Register .A .None .None 4,  -- 0xA7
  mkInst .Res .Register .B .None .None 5,  -- 0xA8
  mkInst .Res .Register .C .None .None 5,  -- 0xA9
  mkInst .Res .Register .D .None .None 5,  -- 0xAA
  mkInst .Res .Register .E .None .None 5,  -- 0xAB
  mkInst .Res .Register .H .None .None 5,  -- 0xAC
  mkInst .Res .Register .L .None .None 5,  -- 0xAD
  mkInst .Res .MemoryRegisterOnly .Hl .None .None 5,  -- 0xAE
  mkInst .Res .Register .A .None .None 5,  -- 0xAF
  mkInst .Res .Register .B .None .None 6,  -- 0xB0
  mkInst .Res .Register .C .None .None 6,  -- 0xB1
  mkInst .Res .Register .D .None .None 6,  -- 0xB2
  mkInst .Res .Register .E .None .None 6,  -- 0xB3
  mkInst .Res .Register .H .None .None 6,  -- 0xB4
  mkInst .Res .Register .L .None .None 6,  -- 0xB5
  mkInst .Res .MemoryRegisterOnly .Hl .None .None 6,  -- 0xB6
  mkInst .Res .Register .A .None .None 6,  -- 0xB7
  mkInst .Res .Register .B .None .None 7,  -- 0xB8
  mkInst .Res .Register .C .None .None 7,  -- 0xB9
  mkInst .Res .Register .D .None .None 7,  -- 0xBA
  mkInst .Res .Register .E .None .None 7,  -- 0xBB
  mkInst .Res .Register .H .None .None 7,  -- 0xBC
  mkInst .Res .Register .L .None .None 7,  -- 0xBD
  mkInst .Res .MemoryRegisterOnly .Hl .None .None 7,  -- 0xBE
  mkInst .Res .Register .A .None .None 7,  -- 0xBF
  mkInst .Set .Register .B .None .None 0,  -- 0xC0
  mkInst .Set .Register .C .None .None 0,  -- 0xC1
  mkInst .Set .Register .D .None .None 0,  -- 0xC2
  mkInst .Set .Register .E .None .None 0,  -- 0xC3
  mkInst .Set .Register .H .None .None 0,  -- 0xC4
  mkInst .Set .Register .L .None .None 0,  -- 0xC5
  mkInst .Set .MemoryRegisterOnly .Hl .None .None 0,  -- 0xC6
  mkInst .Set .Register .A .None .None 0,  -- 0xC7
  mkInst .Set .Register .B .None .None 1,  -- 0xC8
  mkInst .Set .Register .C .None .None 1,  -- 0xC9
  mkInst .Set .Register .D .None .None 1,  -- 0xCA
  mkInst .Set .Register .E .None .None 1,  -- 0xCB
  mkInst .Set .Register .H .None .None 1,  -- 0xCC
  mkInst .Set .Register .L .None .None 1,  -- 0xCD
  mkInst .Set .MemoryRegisterOnly .Hl .None .None 1,  -- 0xCE
  mkInst .Set .Register .A .None .None 1,  -- 0xCF
  mkInst .Set .Register .B .None .None 2,  -- 0xD0
  mkInst .Set .Register .C .None .None 2,  -- 0xD1
  mkInst .Set .Register .D .None .None 2,  -- 0xD2
  mkInst .Set .Register .E .None .None 2,  -- 0xD3
  mkInst .Set .Register .H .None .None 2,  -- 0xD4
  mkInst .Set .Register .L .None .None 2,  -- 0xD5
  mkInst .Set .MemoryRegisterOnly .Hl .None .None 2,  -- 0xD6
  mkInst .Set .Register .A .None .None 2,  -- 0xD7
  mkInst .Set .Register .B .None .None 3,  -- 0xD8
  mkInst .Set .Register .C .None .None 3,  -- 0xD9
  mkInst .Set .Register .D .None .None 3,  -- 0xDA
  mkInst .Set .Register .E .None .None 3,  -- 0xDB
  mkInst .Set .Register .H .None .None 3,  -- 0xDC
  mkInst .Set .Register .L .None .None 3,  -- 0xDD
  mkInst .Set .MemoryRegisterOnly .Hl .None .None 3,  -- 0xDE
  mkInst .Set .Register .A .None .None 3,  -- 0xDF
  mkInst .Set .Register .B .None .None 4,  -- 0xE0
  mkInst .Set .Register .C .None .None 4,  -- 0xE1
  mkInst .Set .Register .D .None .None 4,  -- 0xE2
  mkInst .Set .Register .E .None .None 4,  -- 0xE3
  mkInst .Set .Register .H .None .None 4,  -- 0xE4
  mkInst .Set .Register .L .None .None 4,  -- 0xE5
  mkInst .Set .MemoryRegisterOnly .Hl .None .None 4,  -- 0xE6
  mkInst .Set .Register .A .None .None 4,  -- 0xE7
  mkInst .Set .Register .B .None .None 5,  -- 0xE8
  mkInst .Set .Register .C .None .None 5,  -- 0xE9
  mkInst .Set .Register .D .None .None 5,  -- 0xEA
  mkInst .Set .Register .E .None .None 5,  -- 0xEB
  mkInst .Set .Register .H .None .None 5,  -- 0xEC
  mkInst .Set .Register .L .None .None 5,  -- 0xED
  mkInst .Set .MemoryRegisterOnly .Hl .None .None 5,  -- 0xEE
  mkInst .Set .Register .A .None .None 5,  -- 0xEF
  mkInst .Set .Register .B .None .None 6,  -- 0xF0
  mkInst .Set .Register .C .None .None 6,  -- 0xF1
  mkInst .Set .Register .D .None .None 6,  -- 0xF2
  mkInst .Set .Register .E .None .None 6,  -- 0xF3
  mkInst .Set .Register .H .None .None 6,  -- 0xF4
  mkInst .Set .Register .L .None .None 6,  -- 0xF5
  mkInst .Set .MemoryRegisterOnly .Hl .None .None 6,  -- 0xF6
  mkInst .Set .Register .A .None .None 6,  -- 0xF7
  mkInst .Set .Register .B .None .None 7,  -- 0xF8
  mkInst .Set .Register .C .None .None 7,  -- 0xF9
  mkInst .Set .Register .D .None .None 7,  -- 0xFA
  mkInst .Set .Register .E .None .None 7,  -- 0xFB
  mkInst .Set .Register .H .None .None 7,  -- 0xFC
  mkInst .Set .Register .L .None .None 7,  -- 0xFD
  mkInst .Set .MemoryRegisterOnly .Hl .None .None 7,  -- 0xFE
  mkInst .Set .Register .A .None .None 7  -- 0xFF
]

/-- cpu/instructions.rs `cb_instruction_by_opcode`. -/
def cb_instruction_by_opcode (opcode : Nat) : Instruction :=
  CB_INSTRUCTIONS.getD opcode Instruction.new

/-- cart.rs `RomHeader` (the parsed title string is not consulted by any
access path and is omitted). -/
structure RomHeader where
  cart_type : Nat
  rom_size : Nat
  ram_size : Nat
  lic_code : Nat
  version : Nat
  checksum : Nat
deriving DecidableEq

/-- cart.rs `Cartridge`. The ROM and RAM `Vec<u8>` are modelled as a length
plus a contents function; the file path and battery-save file I/O are
host-side effects outside the memory semantics and are not modelled. -/
structure Cartridge where
  rom_len : Nat
  rom : Nat → Nat
  header : RomHeader
  ram_enabled : Bool
  rom_bank : Nat
  ram_bank : Nat
  banking_mode : Nat
  ram_len : Nat
  ram : Nat → Nat
  battery : Bool
  need_save : Bool

namespace Cartridge

/-- `self.rom.get(i).copied().unwrap_or(0xFF)`. -/
def romGet (c : Cartridge) (i : Nat) : Nat :=
  if i < c.rom_len then c.rom i else 0xFF

/-- `self.ram.get(i).copied().unwrap_or(0xFF)`. -/
def ramGet (c : Cartridge) (i : Nat) : Nat :=
  if i < c.ram_len then c.ram i else 0xFF

/-- `Cartridge::rom_bank_count`. -/
def rom_bank_count (c : Cartridge) : Nat := max (c.rom_len / 0x4000) 1

/-- `Cartridge::ram_bank_count`. -/
def ram_bank_count (c : Cartridge) : Nat := max (c.ram_len / 0x2000) 1

/-- `Cartridge::is_mbc1` (cart-type byte 0x01..=0x03). -/
def is_mbc1 (c : Cartridge) : Bool :=
  0x01 ≤ c.header.cart_type && c.header.cart_type ≤ 0x03

/-- `Cartridge::is_mbc3` (cart-type byte 0x0F..=0x13). -/
def is_mbc3 (c : Cartridge) : Bool :=
  0x0F ≤ c.header.cart_type && c.header.cart_type ≤ 0x13

/-- `Cartridge::is_mbc5` (cart-type byte 0x19..=0x1E). -/
def is_mbc5 (c : Cartridge) : Bool :=
  0x19 ≤ c.header.cart_type && c.header.cart_type ≤ 0x1E

/-- `Cartridge::mbc1_rom0_bank`: effective MBC1 bank for 0x0000-0x3FFF. -/
def mbc1_rom0_bank (c : Cartridge) : Nat :=
  if c.banking_mode = 1 then ((c.ram_bank &&& 0x03) <<< 5) % c.rom_bank_count
  else 0

/-- `Cartridge::mbc1_romx_bank`: effective MBC1 bank for 0x4000-0x7FFF. -/
def mbc1_romx_bank (c : Cartridge) : Nat :=
  let bank := c.rom_bank &&& 0x1F
  let bank := if c.banking_mode = 0 then bank ||| ((c.ram_bank &&& 0x03) <<< 5) else bank
  let bank := if bank &&& 0x1F = 0 then bank + 1 else bank
  let bank_count := c.rom_bank_count
  let bank := bank % bank_count
  if bank = 0 ∧ bank_count > 1 then 1 else bank

/-- `Cartridge::read`. -/
def read (c : Cartridge) (address : Nat) : Nat :=
  if address ≤ 0x3FFF then
    if c.is_mbc1 then c.romGet (c.mbc1_rom0_bank * 0x4000 + address)
    else c.romGet address
  else if address ≤ 0x7FFF then
    let bank :=
      if c.is_mbc1 then c.mbc1_romx_bank
      else
        let bank_count := c.rom_bank_count
        let b := c.rom_bank % bank_count
        if b = 0 ∧ bank_count > 1 then 1 else b
    c.romGet (bank * 0x4000 + (address - 0x4000))
  else if 0xA000 ≤ address ∧ address ≤ 0xBFFF then
    if ¬c.ram_enabled ∨ c.ram_len = 0 then 0xFF
    else
      let bank :=
        if c.is_mbc3 then c.ram_bank &&& 0x03
        else if c.banking_mode = 1 then c.ram_bank
        else 0
      let bank := bank % c.ram_bank_count
      c.ramGet (bank * 0x2000 + (address - 0xA000))
  else 0xFF

/-- `Cartridge::write` (MBC registers or cartridge RAM). -/
def write (c : Cartridge) (address value : Nat) : Cartridge :=
  if address ≤ 0x1FFF then
    if c.is_mbc1 ∨ c.is_mbc3 ∨ c.is_mbc5 then
      { c with ram_enabled := value &&& 0x0F == 0x0A }
    else c
  else if address ≤ 0x3FFF then
    if c.is_mbc1 then
      let bank := value &&& 0x1F
      { c with rom_bank := if bank = 0 then 1 else bank }
    else if c.is_mbc3 then
      let bank := value &&& 0x7F
      { c with rom_bank := if bank = 0 then 1 else bank }
    else if c.is_mbc5 then { c with rom_bank := value }
    else c
  else if address ≤ 0x5FFF then
    if c.is_mbc1 then { c with ram_bank := value &&& 0x03 }
    else if c.is_mbc3 then { c with ram_bank := value &&& 0x0F }
    else c
  else if address ≤ 0x7FFF then
    if c.is_mbc1 then { c with banking_mode := value &&& 0x01 } else c
  else if 0xA000 ≤ address ∧ address ≤ 0xBFFF then
    if ¬c.ram_enabled ∨ c.ram_len = 0 then c
    else
      let bank :=
        if c.is_mbc3 then c.ram_bank &&& 0x03
        else if c.banking_mode = 1 then c.ram_bank
        else 0
      let bank := bank % c.ram_bank_count
      let addr := bank * 0x2000 + (address - 0xA000)
      if addr < c.ram_len then
        { c with ram := fun i => if i = addr then value else c.ram i,
                 need_save := true }
      else c
  else c

end Cartridge

/-- ram.rs `WRAM_SIZE`. -/
def WRAM_SIZE : Nat := 0x2000

/-- ram.rs `HRAM_SIZE`. -/
def HRAM_SIZE : Nat := 0x7F

/-- ram.rs `Ram`: work RAM and high RAM. -/
structure Ram where
  wram : Nat → Nat
  hram : Nat → Nat

namespace Ram

/-- `Ram::new`. -/
def new : Ram := ⟨fun _ => 0, fun _ => 0⟩

/-- `Ram::wram_read` (`address.wrapping_sub(0xC000)` then bounds check). -/
def wram_read (r : Ram) (address : Nat) : Nat :=
  let offset := wsub16 address 0xC000
  if offset ≥ WRAM_SIZE then 0xFF else r.wram offset

/-- `Ram::wram_write`. -/
def wram_write (r : Ram) (address value : Nat) : Ram :=
  let offset := wsub16 address 0xC000
  if offset < WRAM_SIZE then
    { r with wram := fun i => if i = offset then value else r.wram i }
  else r

/-- `Ram::hram_read`. -/
def hram_read (r : Ram) (address : Nat) : Nat :=
  let offset := wsub16 address 0xFF80
  if offset ≥ HRAM_SIZE then 0xFF else r.hram offset

/-- `Ram::hram_write`. -/
def hram_write (r : Ram) (address value : Nat) : Ram :=
  let offset := wsub16 address 0xFF80
  if offset < HRAM_SIZE then
    { r with hram := fun i => if i = offset then value else r.hram i }
  else r

end Ram

/-- bus.rs `Bus`. Addresses are `u16`, so every caller passes a value at
most 0xFFFF and the final arm corresponds to the source's exact match on
0xFFFF. The `io_written` per-register set is consumed by emu.rs through
`take_io_written` and described by the spec, but its Bus-side definition is
absent from src; the field and its write-path update are modelled from the
spec: a bus write to an I/O register stores the byte in the backing store
and marks the register as written. The `vram_dirty`/`oam_dirty` flags are
referenced by emu.rs the same way and serve only to trigger copies into
PPU-side mirrors that this embedding does not duplicate. -/
structure Bus where
  ram : Ram
  ie_register : Nat
  int_flags : Nat
  cart : Option Cartridge
  vram : Nat → Nat
  oam : Nat → Nat
  io_regs : Nat → Nat
  dma_active : Bool
  io_written : Nat → Bool

namespace Bus

/-- `Bus::new`. -/
def new : Bus :=
  { ram := Ram.new, ie_register := 0, int_flags := 0, cart := none,
    vram := fun _ => 0, oam := fun _ => 0, io_regs := fun _ => 0,
    dma_active := false, io_written := fun _ => false }

/-- `Bus::load_cartridge`. -/
def load_cartridge (b : Bus) (c : Cartridge) : Bus := { b with cart := some c }

/-- `Bus::set_dma_active`. -/
def set_dma_active (b : Bus) (active : Bool) : Bus := { b with dma_active := active }

/-- Modelled from the spec: `Bus::take_io_written` (referenced by emu.rs,
definition absent from src) — return and clear the "written" mark of one
I/O register index. -/
def take_io_written (b : Bus) (idx : Nat) : Bus × Bool :=
  ({ b with io_written := fun i => if i = idx then false else b.io_written i },
   b.io_written idx)

/-- `<Bus as MemoryBus>::read`. -/
def read (b : Bus) (address : Nat) : Nat :=
  if address ≤ 0x7FFF then
    match b.cart with
    | some c => c.read address
    | none => 0xFF
  else if address ≤ 0x9FFF then b.vram (address - 0x8000)
  else if address ≤ 0xBFFF then
    match b.cart with
    | some c => c.read address
    | none => 0xFF
  else if address ≤ 0xDFFF then b.ram.wram_read address
  else if address ≤ 0xFDFF then b.ram.wram_read (address - 0x2000)
  else if address ≤ 0xFE9F then
    if b.dma_active then 0xFF else b.oam (address - 0xFE00)
  else if address ≤ 0xFEFF then 0xFF
  else if address ≤ 0xFF7F then
    if address = 0xFF0F then b.int_flags ||| 0xE0
    else b.io_regs (address - 0xFF00)
  else if address ≤ 0xFFFE then b.ram.hram_read address
  else b.ie_register

/-- `<Bus as MemoryBus>::write`. -/
def write (b : Bus) (address value : Nat) : Bus :=
  if address ≤ 0x7FFF then
    match b.cart with
    | some c => { b with cart := some (c.write address value) }
    | none => b
  else if address ≤ 0x9FFF then
    { b with vram := fun i => if i = address - 0x8000 then value else b.vram i }
  else if address ≤ 0xBFFF then
    match b.cart with
    | some c => { b with cart := some (c.write address value) }
    | none => b
  else if address ≤ 0xDFFF then { b with ram := b.ram.wram_write address value }
  else if address ≤ 0xFDFF then
    { b with ram := b.ram.wram_write (address - 0x2000) value }
  else if address ≤ 0xFE9F then
    if ¬b.dma_active then
      { b with oam := fun i => if i = address - 0xFE00 then value else b.oam i }
    else b
  else if address ≤ 0xFEFF then b
  else if address ≤ 0xFF7F then
    if address = 0xFF0F then { b with int_flags := value }
    else
      { b with io_regs := fun i => if i = address - 0xFF00 then value else b.io_regs i,
               io_written := fun i => if i = address - 0xFF00 then true else b.io_written i }
  else if address ≤ 0xFFFE then { b with ram := b.ram.hram_write address value }
  else { b with ie_register := value }

/-- `MemoryBus::read16` (little-endian; the address increment wraps at
the 16-bit boundary). -/
def read16 (b : Bus) (address : Nat) : Nat :=
  let lo := b.read address
  let hi := b.read (wadd16 address 1)
  lo ||| (hi <<< 8)

/-- `MemoryBus::write16` (low byte first; the address increment wraps at
the 16-bit boundary). -/
def write16 (b : Bus) (address value : Nat) : Bus :=
  (b.write address (value &&& 0xFF)).write (wadd16 address 1) ((value >>> 8) &&& 0xFF)

end Bus

/-- cpu/mod.rs `InterruptType`. -/
inductive InterruptType where
  | VBlank | LcdStat | Timer | Serial | Joypad
deriving DecidableEq

namespace InterruptType

/-- `InterruptType::bit`: IE/IF bit mask of the source. -/
def bitMask : InterruptType → Nat
  | .VBlank => 0x01
  | .LcdStat => 0x02
  | .Timer => 0x04
  | .Serial => 0x08
  | .Joypad => 0x10

/-- `InterruptType::vector`: handler address of the source. -/
def vector : InterruptType → Nat
  | .VBlank => 0x0040
  | .LcdStat => 0x0048
  | .Timer => 0x0050
  | .Serial => 0x0058
  | .Joypad => 0x0060

/-- `InterruptType::all`: the five sources in priority order. -/
def all : List InterruptType := [.VBlank, .LcdStat, .Timer, .Serial, .Joypad]

end InterruptType

/-- cpu/mod.rs `Cpu`: processor state. -/
structure Cpu where
  regs : Registers
  halted : Bool
  ime : Bool
  enabling_ime : Bool
  ie_register : Nat
  int_flags : Nat
  fetched_data : Nat
  mem_dest : Nat
  dest_is_mem : Bool
  cur_opcode : Nat
  cur_inst : Option Instruction
  pending_m_cycles : Nat
deriving DecidableEq

namespace Cpu

/-- `Cpu::new`. -/
def new : Cpu :=
  { regs := Registers.new, halted := false, ime := false, enabling_ime := false,
    ie_register := 0, int_flags := 0, fetched_data := 0, mem_dest := 0,
    dest_is_mem := false, cur_opcode := 0, cur_inst := none, pending_m_cycles := 0 }

/-- `Cpu::init`: boot-ROM-skip register values. -/
def init (c : Cpu) : Cpu :=
  { c with
    regs := ((((({ c.regs with pc := 0x0100, sp := 0xFFFE }).set_af 0x01B0).set_bc
      0x0013).set_de 0x00D8).set_hl 0x014D),
    halted := false, ime := false, enabling_ime := false,
    ie_register := 0, int_flags := 0, pending_m_cycles := 0 }

/-- `Cpu::reset_step_cycles`. -/
def reset_step_cycles (c : Cpu) : Cpu := { c with pending_m_cycles := 0 }

/-- `Cpu::add_m_cycles` (`saturating_add` on `u32`; the counts involved
never approach the bound). -/
def add_m_cycles (c : Cpu) (cycles : Nat) : Cpu :=
  { c with pending_m_cycles := c.pending_m_cycles + cycles }

/-- `Cpu::take_t_cycles`: consume pending M-cycles and return T-cycles. -/
def take_t_cycles (c : Cpu) : Cpu × Nat :=
  ({ c with pending_m_cycles := 0 }, c.pending_m_cycles * 4)

/-- `Cpu::request_interrupt`. -/
def request_interrupt (c : Cpu) (i : InterruptType) : Cpu :=
  { c with int_flags := c.int_flags ||| i.bitMask }

/-- `Cpu::interrupts_pending`. -/
def interrupts_pending (c : Cpu) : Bool :=
  c.int_flags &&& c.ie_register &&& 0x1F != 0

/-- `Cpu::get_pending_interrupt`: highest-priority pending source. -/
def get_pending_interrupt (c : Cpu) : Option InterruptType :=
  let pending := c.int_flags &&& c.ie_register &&& 0x1F
  if pending = 0 then none
  else InterruptType.all.find? (fun t => pending &&& t.bitMask != 0)

/-- `Cpu::clear_interrupt` (`&= !bit` on a `u8`). -/
def clear_interrupt (c : Cpu) (i : InterruptType) : Cpu :=
  { c with int_flags := c.int_flags &&& (0xFF ^^^ i.bitMask) }

/-- execute.rs `Cpu::is_16bit_reg`. -/
def is_16bit_reg : RegisterType → Bool
  | .Af | .Bc | .De | .Hl | .Sp | .Pc => true
  | _ => false

/-- execute.rs `Cpu::check_condition`. -/
def check_condition (c : Cpu) (cond : ConditionType) : Bool :=
  match cond with
  | .None => true
  | .Z => c.regs.flag_z
  | .Nz => !c.regs.flag_z
  | .C => c.regs.flag_c
  | .Nc => !c.regs.flag_c

/-- execute.rs `Cpu::read_reg8`. -/
def read_reg8 (c : Cpu) (reg : RegisterType) : Nat :=
  match reg with
  | .A => c.regs.a
  | .F => c.regs.f
  | .B => c.regs.b
  | .C => c.regs.c
  | .D => c.regs.d
  | .E => c.regs.e
  | .H => c.regs.h
  | .L => c.regs.l
  | _ => 0

/-- execute.rs `Cpu::write_reg8` (a write to F masks the low nibble). -/
def write_reg8 (c : Cpu) (reg : RegisterType) (value : Nat) : Cpu :=
  match reg with
  | .A => { c with regs := { c.regs with a := value } }
  | .F => { c with regs := { c.regs with f := value &&& 0xF0 } }
  | .B => { c with regs := { c.regs with b := value } }
  | .C => { c with regs := { c.regs with c := value } }
  | .D => { c with regs := { c.regs with d := value } }
  | .E => { c with regs := { c.regs with e := value } }
  | .H => { c with regs := { c.regs with h := value } }
  | .L => { c with regs := { c.regs with l := value } }
  | _ => c

/-- fetch.rs `Cpu::read_reg`. -/
def read_reg (c : Cpu) (reg : RegisterType) : Nat :=
  match reg with
  | .None => 0
  | .A => c.regs.a
  | .F => c.regs.f
  | .B => c.regs.b
  | .C => c.regs.c
  | .D => c.regs.d
  | .E => c.regs.e
  | .H => c.regs.h
  | .L => c.regs.l
  | .Af => c.regs.af
  | .Bc => c.regs.bc
  | .De => c.regs.de
  | .Hl => c.regs.hl
  | .Sp => c.regs.sp
  | .Pc => c.regs.pc

/-- fetch.rs `Cpu::write_reg` (`value as Byte` truncates to 8 bits;
a write to F masks the low nibble; AF goes through `set_af`). -/
def write_reg (c : Cpu) (reg : RegisterType) (value : Nat) : Cpu :=
  match reg with
  | .None => c
  | .A => { c with regs := { c.regs with a := value &&& 0xFF } }
  | .F => { c with regs := { c.regs with f := value &&& 0xF0 } }
  | .B => { c with regs := { c.regs with b := value &&& 0xFF } }
  | .C => { c with regs := { c.regs with c := value &&& 0xFF } }
  | .D => { c with regs := { c.regs with d := value &&& 0xFF } }
  | .E => { c with regs := { c.regs with e := value &&& 0xFF } }
  | .H => { c with regs := { c.regs with h := value &&& 0xFF } }
  | .L => { c with regs := { c.regs with l := value &&& 0xFF } }
  | .Af => { c with regs := c.regs.set_af value }
  | .Bc => { c with regs := c.regs.set_bc value }
  | .De => { c with regs := c.regs.set_de value }
  | .Hl => { c with regs := c.regs.set_hl value }
  | .Sp => { c with regs := { c.regs with sp := value } }
  | .Pc => { c with regs := { c.regs with pc := value } }

/-- fetch.rs `Cpu::fetch_instruction`: read the opcode byte at PC, advance
PC, and latch the decoded descriptor. -/
def fetch_instruction (c : Cpu) (b : Bus) : Cpu :=
  let opcode := b.read c.regs.pc
  { c with cur_opcode := opcode,
           regs := { c.regs with pc := wadd16 c.regs.pc 1 },
           cur_inst := some (instruction_by_opcode opcode) }

/-- fetch.rs `Cpu::fetch_data`: operand fetch driven by the addressing mode. -/
def fetch_data (c : Cpu) (b : Bus) : Cpu :=
  let c := { c with mem_dest := 0, dest_is_mem := false }
  match c.cur_inst with
  | none => c
  | some inst =>
    match inst.mode with
    | .Implied => c
    | .Register => { c with fetched_data := c.read_reg inst.reg1 }
    | .RegisterRegister => { c with fetched_data := c.read_reg inst.reg2 }
    | .RegisterD8 | .D8 =>
      { c with fetched_data := b.read c.regs.pc,
               regs := { c.regs with pc := wadd16 c.regs.pc 1 } }
    | .RegisterD16 | .D16 =>
      let lo := b.read c.regs.pc
      let hi := b.read (wadd16 c.regs.pc 1)
      { c with fetched_data := lo ||| (hi <<< 8),
               regs := { c.regs with pc := wadd16 c.regs.pc 2 } }
    | .MemoryRegister =>
      let dest := c.read_reg inst.reg1
      { c with fetched_data := c.read_reg inst.reg2,
               mem_dest := if inst.reg1 = .C then dest ||| 0xFF00 else dest,
               dest_is_mem := true }
    | .RegisterMemory =>
      let addr := c.read_reg inst.reg2
      let addr := if inst.reg2 = .C then addr ||| 0xFF00 else addr
      { c with fetched_data := b.read addr }
    | .RegisterHli =>
      let c := { c with fetched_data := b.read (c.read_reg inst.reg2) }
      { c with regs := c.regs.set_hl (wadd16 c.regs.hl 1) }
    | .RegisterHld =>
      let c := { c with fetched_data := b.read (c.read_reg inst.reg2) }
      { c with regs := c.regs.set_hl (wsub16 c.regs.hl 1) }
    | .HliRegister =>
      let c := { c with fetched_data := c.read_reg inst.reg2,
                        mem_dest := c.read_reg inst.reg1,
                        dest_is_mem := true }
      { c with regs := c.regs.set_hl (wadd16 c.regs.hl 1) }
    | .HldRegister =>
      let c := { c with fetched_data := c.read_reg inst.reg2,
                        mem_dest := c.read_reg inst.reg1,
                        dest_is_mem := true }
      { c with regs := c.regs.set_hl (wsub16 c.regs.hl 1) }
    | .RegisterA8 =>
      { c with fetched_data := b.read c.regs.pc,
               regs := { c.regs with pc := wadd16 c.regs.pc 1 } }
    | .A8Register =>
      { c with mem_dest := b.read c.regs.pc ||| 0xFF00,
               dest_is_mem := true,
               regs := { c.regs with pc := wadd16 c.regs.pc 1 } }
    | .HlSpr =>
      { c with fetched_data := b.read c.regs.pc,
               regs := { c.regs with pc := wadd16 c.regs.pc 1 } }
    | .A16Register =>
      let lo := b.read c.regs.pc
      let hi := b.read (wadd16 c.regs.pc 1)
      { c with mem_dest := lo ||| (hi <<< 8),
               dest_is_mem := true,
               regs := { c.regs with pc := wadd16 c.regs.pc 2 },
               fetched_data := c.read_reg inst.reg2 }
    | .MemoryRegisterD8 =>
      { c with fetched_data := b.read c.regs.pc,
               regs := { c.regs with pc := wadd16 c.regs.pc 1 },
               mem_dest := c.read_reg inst.reg1,
               dest_is_mem := true }
    | .MemoryRegisterOnly =>
      { c with mem_dest := c.read_reg inst.reg1,
               dest_is_mem := true,
               fetched_data := b.read (c.read_reg inst.reg1) }
    | .RegisterA16 =>
      let lo := b.read c.regs.pc
      let hi := b.read (wadd16 c.regs.pc 1)
      let addr := lo ||| (hi <<< 8)
      { c with regs := { c.regs with pc := wadd16 c.regs.pc 2 },
               fetched_data := b.read addr }

/-- execute.rs `Cpu::stack_push8`: decrement SP, then write. -/
def stack_push8 (c : Cpu) (b : Bus) (value : Nat) : Cpu × Bus :=
  let c := { c with regs := { c.regs with sp := wsub16 c.regs.sp 1 } }
  (c, b.write c.regs.sp value)

/-- execute.rs `Cpu::stack_pop8`: read, then increment SP. -/
def stack_pop8 (c : Cpu) (b : Bus) : Cpu × Nat :=
  let value := b.read c.regs.sp
  ({ c with regs := { c.regs with sp := wadd16 c.regs.sp 1 } }, value)

/-- execute.rs `Cpu::stack_push16`: high byte first. -/
def stack_push16 (c : Cpu) (b : Bus) (value : Nat) : Cpu × Bus :=
  let hi := (value >>> 8) &&& 0xFF
  let lo := value &&& 0xFF
  let (c, b) := c.stack_push8 b hi
  c.stack_push8 b lo

/-- execute.rs `Cpu::stack_pop16`: low byte first. -/
def stack_pop16 (c : Cpu) (b : Bus) : Cpu × Nat :=
  let (c, lo) := c.stack_pop8 b
  let (c, hi) := c.stack_pop8 b
  (c, (hi <<< 8) ||| lo)

/-- execute.rs `Cpu::jump_to_if`: take the jump (and one extra M-cycle)
only when the condition holds. -/
def jump_to_if (c : Cpu) (addr : Nat) (cond : ConditionType) : Cpu :=
  if c.check_condition cond then
    ({ c with regs := { c.regs with pc := addr } }).add_m_cycles 1
  else c

/-- execute.rs `Cpu::proc_ld`. -/
def proc_ld (c : Cpu) (b : Bus) (inst : Instruction) : Cpu × Bus :=
  if c.dest_is_mem then
    if is_16bit_reg inst.reg2 then
      let c := c.add_m_cycles 1
      let b := b.write16 c.mem_dest c.fetched_data
      (c.add_m_cycles 1, b)
    else
      let b := b.write c.mem_dest (c.fetched_data &&& 0xFF)
      (c.add_m_cycles 1, b)
  else if inst.mode = .HlSpr then
    let hflag := decide ((c.read_reg inst.reg2 &&& 0xF) + (c.fetched_data &&& 0xF) ≥ 0x10)
    let cflag := decide ((c.read_reg inst.reg2 &&& 0xFF) + (c.fetched_data &&& 0xFF) ≥ 0x100)
    let c := { c with regs := c.regs.set_flags false false hflag cflag }
    (c.write_reg inst.reg1 (wadd16 (c.read_reg inst.reg2) (signExt8 c.fetched_data)), b)
  else (c.write_reg inst.reg1 c.fetched_data, b)

/-- execute.rs `Cpu::proc_ldh`. -/
def proc_ldh (c : Cpu) (b : Bus) (inst : Instruction) : Cpu × Bus :=
  if inst.reg1 = .A then
    let c := { c with regs := { c.regs with a := b.read (0xFF00 ||| c.fetched_data) } }
    (c.add_m_cycles 1, b)
  else
    let b := b.write c.mem_dest c.regs.a
    (c.add_m_cycles 1, b)

/-- execute.rs `Cpu::proc_inc`. -/
def proc_inc (c : Cpu) (b : Bus) (inst : Instruction) : Cpu × Bus :=
  let val := wadd16 (c.read_reg inst.reg1) 1
  let c := if is_16bit_reg inst.reg1 then c.add_m_cycles 1 else c
  let (c, b, val) :=
    if inst.reg1 = .Hl ∧ inst.mode = .MemoryRegisterOnly then
      let v := wadd16 (b.read c.regs.hl) 1 &&& 0xFF
      (c, b.write c.regs.hl (v &&& 0xFF), v)
    else
      let c := c.write_reg inst.reg1 val
      (c, b, c.read_reg inst.reg1)
  if c.cur_opcode &&& 0x03 = 0x03 then (c, b)
  else
    let c := { c with regs := c.regs.set_flag_z (val &&& 0xFF == 0) }
    let c := { c with regs := c.regs.set_flag_n false }
    ({ c with regs := c.regs.set_flag_h (val &&& 0x0F == 0) }, b)

/-- execute.rs `Cpu::proc_dec`. -/
def proc_dec (c : Cpu) (b : Bus) (inst : Instruction) : Cpu × Bus :=
  let val := wsub16 (c.read_reg inst.reg1) 1
  let c := if is_16bit_reg inst.reg1 then c.add_m_cycles 1 else c
  let (c, b, val) :=
    if inst.reg1 = .Hl ∧ inst.mode = .MemoryRegisterOnly then
      let v := wsub16 (b.read c.regs.hl) 1 &&& 0xFF
      (c, b.write c.regs.hl (v &&& 0xFF), v)
    else
      let c := c.write_reg inst.reg1 val
      (c, b, c.read_reg inst.reg1)
  if c.cur_opcode &&& 0x0B = 0x0B then (c, b)
  else
    let c := { c with regs := c.regs.set_flag_z (val &&& 0xFF == 0) }
    let c := { c with regs := c.regs.set_flag_n true }
    ({ c with regs := c.regs.set_flag_h (val &&& 0x0F == 0x0F) }, b)

/-- execute.rs `Cpu::proc_add` (8-bit, 16-bit and ADD SP,r8 variants). -/
def proc_add (c : Cpu) (inst : Instruction) : Cpu :=
  let reg_val := c.read_reg inst.reg1
  let val := wadd16 reg_val c.fetched_data
  let is16 := is_16bit_reg inst.reg1
  let c := if is16 then c.add_m_cycles 1 else c
  let val := if inst.reg1 = .Sp then wadd16 reg_val (signExt8 c.fetched_data) else val
  let z := decide (val &&& 0xFF = 0)
  let h := decide ((reg_val &&& 0xF) + (c.fetched_data &&& 0xF) ≥ 0x10)
  let cc := decide ((reg_val &&& 0xFF) + (c.fetched_data &&& 0xFF) ≥ 0x100)
  let z := if is16 then c.regs.flag_z else z
  let h := if is16 then decide ((reg_val &&& 0xFFF) + (c.fetched_data &&& 0xFFF) ≥ 0x1000) else h
  let cc := if is16 then decide (reg_val + c.fetched_data ≥ 0x10000) else cc
  let z := if inst.reg1 = .Sp then false else z
  let h := if inst.reg1 = .Sp then decide ((reg_val &&& 0xF) + (c.fetched_data &&& 0xF) ≥ 0x10) else h
  let cc := if inst.reg1 = .Sp then decide ((reg_val &&& 0xFF) + (c.fetched_data &&& 0xFF) ≥ 0x100) else cc
  let c := c.write_reg inst.reg1 val
  { c with regs := c.regs.set_flags z false h cc }

/-- execute.rs `Cpu::proc_adc`. -/
def proc_adc (c : Cpu) : Cpu :=
  let u := c.fetched_data
  let a := c.regs.a
  let cf := if c.regs.flag_c then 1 else 0
  let c := { c with regs := { c.regs with a := (a + u + cf) &&& 0xFF } }
  let r := c.regs.set_flags (c.regs.a == 0) false
    (decide ((a &&& 0xF) + (u &&& 0xF) + cf > 0xF)) (decide (a + u + cf > 0xFF))
  { c with regs := r }

/-- execute.rs `Cpu::proc_sub` (half-carry and carry computed as signed
`i32` comparisons in the source, modelled on `Int`). -/
def proc_sub (c : Cpu) (inst : Instruction) : Cpu :=
  let reg_val := c.read_reg inst.reg1
  let val := wsub16 reg_val c.fetched_data
  let z := decide (val &&& 0xFF = 0)
  let h := decide (((reg_val &&& 0xF : Nat) : Int) - ((c.fetched_data &&& 0xF : Nat) : Int) < 0)
  let cc := decide ((reg_val : Int) - (c.fetched_data : Int) < 0)
  let c := c.write_reg inst.reg1 val
  { c with regs := c.regs.set_flags z true h cc }

/-- execute.rs `Cpu::proc_sbc`. The zero flag is computed from the full
16-bit wrapping difference `reg_val.wrapping_sub(val)`, without the
`& 0xFF` masking used by `proc_sub`. -/
def proc_sbc (c : Cpu) (inst : Instruction) : Cpu :=
  let c_flag := if c.regs.flag_c then 1 else 0
  let val := wadd16 c.fetched_data c_flag
  let reg_val := c.read_reg inst.reg1
  let z := decide (wsub16 reg_val val = 0)
  let h := decide (((reg_val &&& 0xF : Nat) : Int) - ((c.fetched_data &&& 0xF : Nat) : Int)
    - (c_flag : Int) < 0)
  let cc := decide ((reg_val : Int) - (c.fetched_data : Int) - (c_flag : Int) < 0)
  let c := c.write_reg inst.reg1 (wsub16 reg_val val)
  { c with regs := c.regs.set_flags z true h cc }

/-- execute.rs `Cpu::proc_and`. -/
def proc_and (c : Cpu) : Cpu :=
  let c := { c with regs := { c.regs with a := c.regs.a &&& (c.fetched_data &&& 0xFF) } }
  { c with regs := c.regs.set_flags (c.regs.a == 0) false true false }

/-- execute.rs `Cpu::proc_xor`. -/
def proc_xor (c : Cpu) : Cpu :=
  let c := { c with regs := { c.regs with a := c.regs.a ^^^ (c.fetched_data &&& 0xFF) } }
  { c with regs := c.regs.set_flags (c.regs.a == 0) false false false }

/-- execute.rs `Cpu::proc_or`. -/
def proc_or (c : Cpu) : Cpu :=
  let c := { c with regs := { c.regs with a := c.regs.a ||| (c.fetched_data &&& 0xFF) } }
  { c with regs := c.regs.set_flags (c.regs.a == 0) false false false }

/-- execute.rs `Cpu::proc_cp` (signed `i32` difference, modelled on `Int`). -/
def proc_cp (c : Cpu) : Cpu :=
  let n : Int := (c.regs.a : Int) - (c.fetched_data : Int)
  let r := c.regs.set_flags (n == 0) true
    (decide (((c.regs.a &&& 0x0F : Nat) : Int) - ((c.fetched_data &&& 0x0F : Nat) : Int) < 0))
    (n < 0)
  { c with regs := r }

/-- execute.rs `Cpu::proc_jr` (relative target, sign-extended offset). -/
def proc_jr (c : Cpu) (inst : Instruction) : Cpu :=
  let rel := c.fetched_data &&& 0xFF
  let addr := wadd16 c.regs.pc (signExt8 rel)
  c.jump_to_if addr inst.cond

/-- execute.rs `Cpu::proc_jp`. -/
def proc_jp (c : Cpu) (inst : Instruction) : Cpu :=
  c.jump_to_if c.fetched_data inst.cond

/-- execute.rs `Cpu::proc_call`. -/
def proc_call (c : Cpu) (b : Bus) (inst : Instruction) : Cpu × Bus :=
  if c.check_condition inst.cond then
    let c := c.add_m_cycles 2
    let (c, b) := c.stack_push16 b c.regs.pc
    let c := { c with regs := { c.regs with pc := c.fetched_data } }
    (c.add_m_cycles 1, b)
  else (c, b)

/-- execute.rs `Cpu::proc_ret`. -/
def proc_ret (c : Cpu) (b : Bus) (inst : Instruction) : Cpu × Bus :=
  let c := if inst.cond ≠ .None then c.add_m_cycles 1 else c
  if c.check_condition inst.cond then
    let (c, v) := c.stack_pop16 b
    let c := { c with regs := { c.regs with pc := v } }
    (c.add_m_cycles 3, b)
  else (c, b)

/-- execute.rs `Cpu::proc_reti`. -/
def proc_reti (c : Cpu) (b : Bus) : Cpu × Bus :=
  let c := { c with ime := true }
  let (c, v) := c.stack_pop16 b
  let c := { c with regs := { c.regs with pc := v } }
  (c.add_m_cycles 3, b)

/-- execute.rs `Cpu::proc_rst`. -/
def proc_rst (c : Cpu) (b : Bus) (inst : Instruction) : Cpu × Bus :=
  let c := c.add_m_cycles 2
  let (c, b) := c.stack_push16 b c.regs.pc
  let c := { c with regs := { c.regs with pc := inst.param } }
  (c.add_m_cycles 1, b)

/-- execute.rs `Cpu::proc_pop` (POP AF forces the low nibble of F to 0). -/
def proc_pop (c : Cpu) (b : Bus) (inst : Instruction) : Cpu × Bus :=
  let (c, val) := c.stack_pop16 b
  let c := c.add_m_cycles 2
  let c := c.write_reg inst.reg1 val
  if inst.reg1 = .Af then
    ({ c with regs := { c.regs with f := c.regs.f &&& 0xF0 } }, b)
  else (c, b)

/-- execute.rs `Cpu::proc_push`. -/
def proc_push (c : Cpu) (b : Bus) (inst : Instruction) : Cpu × Bus :=
  let val := c.read_reg inst.reg1
  let (c, b) := c.stack_push16 b val
  (c.add_m_cycles 3, b)

/-- execute.rs `Cpu::proc_rlca` (`u << 1` on a `u8` drops the top bit). -/
def proc_rlca (c : Cpu) : Cpu :=
  let u := c.regs.a
  let cb := (u >>> 7) &&& 1
  let c := { c with regs := { c.regs with a := ((u <<< 1) &&& 0xFF) ||| cb } }
  { c with regs := c.regs.set_flags false false false (cb != 0) }

/-- execute.rs `Cpu::proc_rrca`. -/
def proc_rrca (c : Cpu) : Cpu :=
  let bb := c.regs.a &&& 1
  let c := { c with regs := { c.regs with a := (c.regs.a >>> 1) ||| (bb <<< 7) } }
  { c with regs := c.regs.set_flags false false false (bb != 0) }

/-- execute.rs `Cpu::proc_rla` (rotate through carry). -/
def proc_rla (c : Cpu) : Cpu :=
  let u := c.regs.a
  let cf := if c.regs.flag_c then 1 else 0
  let cb := (u >>> 7) &&& 1
  let c := { c with regs := { c.regs with a := ((u <<< 1) &&& 0xFF) ||| cf } }
  { c with regs := c.regs.set_flags false false false (cb != 0) }

/-- execute.rs `Cpu::proc_rra` (rotate through carry). -/
def proc_rra (c : Cpu) : Cpu :=
  let carry := if c.regs.flag_c then 1 else 0
  let new_c := c.regs.a &&& 1
  let c := { c with regs := { c.regs with a := (c.regs.a >>> 1) ||| (carry <<< 7) } }
  { c with regs := c.regs.set_flags false false false (new_c != 0) }

/-- execute.rs `Cpu::proc_halt`. -/
def proc_halt (c : Cpu) : Cpu := { c with halted := true }

/-- execute.rs `Cpu::proc_daa`. -/
def proc_daa (c : Cpu) : Cpu :=
  let u := if c.regs.flag_h || (!c.regs.flag_n && decide (c.regs.a &&& 0xF > 9)) then 6 else 0
  let adjust := c.regs.flag_c || (!c.regs.flag_n && decide (c.regs.a > 0x99))
  let u := if adjust then u ||| 0x60 else u
  let fc := adjust
  let c := { c with regs := { c.regs with
    a := if c.regs.flag_n then wsub8 c.regs.a u else wadd8 c.regs.a u } }
  let c := { c with regs := c.regs.set_flag_z (c.regs.a == 0) }
  let c := { c with regs := c.regs.set_flag_h false }
  { c with regs := c.regs.set_flag_c fc }

/-- execute.rs `Cpu::proc_cpl` (bitwise not of a byte). -/
def proc_cpl (c : Cpu) : Cpu :=
  let c := { c with regs := { c.regs with a := c.regs.a ^^^ 0xFF } }
  let c := { c with regs := c.regs.set_flag_n true }
  { c with regs := c.regs.set_flag_h true }

/-- execute.rs `Cpu::proc_scf`. -/
def proc_scf (c : Cpu) : Cpu :=
  let c := { c with regs := c.regs.set_flag_n false }
  let c := { c with regs := c.regs.set_flag_h false }
  { c with regs := c.regs.set_flag_c true }

/-- execute.rs `Cpu::proc_ccf`. -/
def proc_ccf (c : Cpu) : Cpu :=
  let c := { c with regs := c.regs.set_flag_n false }
  let c := { c with regs := c.regs.set_flag_h false }
  { c with regs := c.regs.set_flag_c (!c.regs.flag_c) }

/-- execute.rs `Cpu::proc_di`. -/
def proc_di (c : Cpu) : Cpu := { c with ime := false }

/-- execute.rs `Cpu::proc_ei` (one-instruction delayed enable). -/
def proc_ei (c : Cpu) : Cpu := { c with enabling_ime := true }

/-- execute.rs `Cpu::write_cb_result`. -/
def write_cb_result (c : Cpu) (b : Bus) (reg : RegisterType) (value : Nat) : Cpu × Bus :=
  if reg = .Hl then (c, b.write c.regs.hl value)
  else (c.write_reg8 reg value, b)

/-- The rotate/shift arm of execute.rs `Cpu::proc_cb` (`bit_op == 0`): the
`match bit_idx` computing the result byte and the new carry, split out of
`proc_cb` with the incoming carry flag and decoded fields as arguments. -/
def cb_rot_shift (flag_c : Bool) (bit_idx reg_val : Nat) : Nat × Bool :=
  if bit_idx = 0 then
    let cb := (reg_val >>> 7) &&& 1
    (((reg_val <<< 1) &&& 0xFF) ||| cb, cb != 0)
  else if bit_idx = 1 then
    let cb := reg_val &&& 1
    ((reg_val >>> 1) ||| (cb <<< 7), cb != 0)
  else if bit_idx = 2 then
    let cb := (reg_val >>> 7) &&& 1
    (((reg_val <<< 1) &&& 0xFF) ||| (if flag_c then 1 else 0), cb != 0)
  else if bit_idx = 3 then
    let cb := reg_val &&& 1
    ((reg_val >>> 1) ||| (if flag_c then 0x80 else 0), cb != 0)
  else if bit_idx = 4 then
    let cb := (reg_val >>> 7) &&& 1
    ((reg_val <<< 1) &&& 0xFF, cb != 0)
  else if bit_idx = 5 then
    let cb := reg_val &&& 1
    ((reg_val >>> 1) ||| (reg_val &&& 0x80), cb != 0)
  else if bit_idx = 6 then
    (((reg_val &&& 0xF0) >>> 4) ||| ((reg_val &&& 0x0F) <<< 4), false)
  else
    let cb := reg_val &&& 1
    (reg_val >>> 1, cb != 0)

/-- Tail of execute.rs `Cpu::proc_cb` from the `match bit_op` dispatch on
(split out of `proc_cb` with the decoded values as arguments). -/
def proc_cb_core (c : Cpu) (b : Bus) (reg : RegisterType) (bitIdx reg_val bit_op op : Nat) :
    Cpu × Bus :=
  if bit_op = 1 then
    let c := { c with regs := c.regs.set_flag_z (reg_val &&& (1 <<< bitIdx) == 0) }
    let c := { c with regs := c.regs.set_flag_n false }
    ({ c with regs := c.regs.set_flag_h true }, b)
  else if bit_op = 2 then
    c.write_cb_result b reg (reg_val &&& (0xFF ^^^ (1 <<< bitIdx)))
  else if bit_op = 3 then
    c.write_cb_result b reg (reg_val ||| (1 <<< bitIdx))
  else
    let flag_c := c.regs.flag_c
    let bit_idx := (op >>> 3) &&& 0b111
    let rs : Nat × Bool := cb_rot_shift flag_c bit_idx reg_val
    let (c, b) := c.write_cb_result b reg rs.1
    ({ c with regs := c.regs.set_flags (rs.1 == 0) false false rs.2 }, b)

/-- execute.rs `Cpu::proc_cb`: decode and run a 0xCB-prefixed operation
(decode and extra-cycle accounting here, the `match bit_op` dispatch in
`proc_cb_core`). The doc comment in the source claims the fetch already
consumed two M-cycles for CB opcodes; only the extra (HL) cycles are
actually added. -/
def proc_cb (c : Cpu) (b : Bus) : Cpu × Bus :=
  let op := c.fetched_data &&& 0xFF
  let cb_inst := cb_instruction_by_opcode op
  let reg := cb_inst.reg1
  let bitIdx := cb_inst.param
  let reg_val := if reg = .Hl then b.read c.regs.hl else c.read_reg8 reg
  let bit_op := (op >>> 6) &&& 0b11
  let c :=
    if reg = .Hl then
      if bit_op = 1 then c.add_m_cycles 1 else c.add_m_cycles 2
    else c
  proc_cb_core c b reg bitIdx reg_val bit_op op

/-- execute.rs `Cpu::execute`: dispatch on the latched descriptor.
`proc_none` panics in the source (undefined opcode); that is the `none`
result. With no latched descriptor the source returns without effect.
`proc_stop` has an empty body. The CB-suffix instruction kinds are
reached only through `proc_cb` and fall through without effect. -/
def execute (c : Cpu) (b : Bus) : Option (Cpu × Bus) :=
  match c.cur_inst with
  | none => some (c, b)
  | some inst =>
    match inst.inst_type with
    | .None => none
    | .Nop => some (c, b)
    | .Ld => some (c.proc_ld b inst)
    | .Ldh => some (c.proc_ldh b inst)
    | .Inc => some (c.proc_inc b inst)
    | .Dec => some (c.proc_dec b inst)
    | .Add => some (c.proc_add inst, b)
    | .Adc => some (c.proc_adc, b)
    | .Sub => some (c.proc_sub inst, b)
    | .Sbc => some (c.proc_sbc inst, b)
    | .And => some (c.proc_and, b)
    | .Xor => some (c.proc_xor, b)
    | .Or => some (c.proc_or, b)
    | .Cp => some (c.proc_cp, b)
    | .Jr => some (c.proc_jr inst, b)
    | .Jp => some (c.proc_jp inst, b)
    | .Call => some (c.proc_call b inst)
    | .Ret => some (c.proc_ret b inst)
    | .Reti => some (c.proc_reti b)
    | .Rst => some (c.proc_rst b inst)
    | .Pop => some (c.proc_pop b inst)
    | .Push => some (c.proc_push b inst)
    | .Rlca => some (c.proc_rlca, b)
    | .Rrca => some (c.proc_rrca, b)
    | .Rla => some (c.proc_rla, b)
    | .Rra => some (c.proc_rra, b)
    | .Stop => some (c, b)
    | .Halt => some (c.proc_halt, b)
    | .Daa => some (c.proc_daa, b)
    | .Cpl => some (c.proc_cpl, b)
    | .Scf => some (c.proc_scf, b)
    | .Ccf => some (c.proc_ccf, b)
    | .Di => some (c.proc_di, b)
    | .Ei => some (c.proc_ei, b)
    | .Cb => some (c.proc_cb b)
    | _ => some (c, b)

/-- execute.rs `Cpu::handle_interrupts`: dispatch the highest-priority
pending and enabled interrupt, if IME allows. -/
def handle_interrupts (c : Cpu) (b : Bus) : Cpu × Bus × Bool :=
  if ¬c.ime ∨ ¬c.interrupts_pending then (c, b, false)
  else
    match c.get_pending_interrupt with
    | some i =>
      let c := { c with ime := false }
      let c := c.clear_interrupt i
      let (c, b) := c.stack_push16 b c.regs.pc
      let c := { c with regs := { c.regs with pc := i.vector } }
      ({ c with halted := false }, b, true)
    | none => (c, b, false)

end Cpu

/-- timer.rs `TIMER_FREQUENCIES` (T-cycles per TIMA increment, indexed by
TAC bits 0-1). -/
def TIMER_FREQUENCIES : List Nat := [1024, 16, 64, 256]

/-- timer.rs `Timer`: DIV/TIMA/TMA/TAC state. `div` is the full internal
16-bit counter; DIV reads expose its upper byte. -/
structure Timer where
  div : Nat
  tima : Nat
  tma : Nat
  tac : Nat
  interrupt_requested : Bool
deriving DecidableEq

namespace Timer

/-- `Timer::new` (post-boot DIV value 0xABCC). -/
def new : Timer := ⟨0xABCC, 0, 0, 0, false⟩

/-- `Timer::init`. -/
def init (_t : Timer) : Timer := new

/-- `Timer::read`. -/
def read (t : Timer) (address : Nat) : Nat :=
  if address = 0xFF04 then (t.div >>> 8) &&& 0xFF
  else if address = 0xFF05 then t.tima
  else if address = 0xFF06 then t.tma
  else if address = 0xFF07 then t.tac
  else 0xFF

/-- `Timer::write`. Writing any value to DIV resets the whole 16-bit
counter to 0; TAC keeps only its low three bits. -/
def write (t : Timer) (address value : Nat) : Timer :=
  if address = 0xFF04 then { t with div := 0 }
  else if address = 0xFF05 then { t with tima := value }
  else if address = 0xFF06 then { t with tma := value }
  else if address = 0xFF07 then { t with tac := value &&& 0x07 }
  else t

/-- `Timer::timer_enabled` (TAC bit 2). -/
def timer_enabled (t : Timer) : Bool := t.tac &&& 0x04 != 0

/-- `Timer::timer_frequency`. -/
def timer_frequency (t : Timer) : Nat := TIMER_FREQUENCIES.getD (t.tac &&& 0x03) 0

/-- `Timer::tick`: one T-cycle. Increment the counter and run the
falling-edge detector on the TAC-selected tap bit; `overflowing_add(1)`
on the byte TIMA overflows exactly when TIMA is 0xFF. -/
def tick (t : Timer) : Timer :=
  let prev_div := t.div
  let t := { t with div := wadd16 t.div 1 }
  if ¬t.timer_enabled then t
  else
    let bit_pos? : Option Nat :=
      match t.timer_frequency with
      | 1024 => some 9
      | 16 => some 3
      | 64 => some 5
      | 256 => some 7
      | _ => none
    match bit_pos? with
    | none => t
    | some bit_pos =>
      let prev_bit := (prev_div >>> bit_pos) &&& 1
      let curr_bit := (t.div >>> bit_pos) &&& 1
      if prev_bit = 1 ∧ curr_bit = 0 then
        if t.tima = 0xFF then { t with tima := t.tma, interrupt_requested := true }
        else { t with tima := wadd8 t.tima 1 }
      else t

/-- `Timer::clear_interrupt`. -/
def clear_interrupt (t : Timer) : Timer := { t with interrupt_requested := false }

end Timer

/-- dma.rs `Dma`: OAM DMA engine state. -/
structure Dma where
  active : Bool
  byte : Nat
  value : Nat
  delay : Nat
deriving DecidableEq

namespace Dma

/-- `Dma::new`. -/
def new : Dma := ⟨false, 0, 0, 0⟩

/-- `Dma::init`. -/
def init (_d : Dma) : Dma := new

/-- `Dma::start`: latch the source page, reset the byte index, arm the
engine with the 2 T-cycle startup delay. -/
def start (_d : Dma) (value : Nat) : Dma :=
  { active := true, byte := 0, value := value, delay := 2 }

/-- `Dma::source_address`. -/
def source_address (d : Dma) : Nat := (d.value <<< 8) ||| d.byte

/-- `Dma::dest_address`. -/
def dest_address (d : Dma) : Nat := 0xFE00 + d.byte

/-- `Dma::tick`: one T-cycle; yields the (source, destination) pair when a
byte should be copied this cycle. -/
def tick (d : Dma) : Dma × Option (Nat × Nat) :=
  if ¬d.active then (d, none)
  else if d.delay > 0 then ({ d with delay := d.delay - 1 }, none)
  else
    let src := d.source_address
    let dst := d.dest_address
    let d := { d with byte := wadd8 d.byte 1 }
    let d := if d.byte ≥ 160 then { d with active := false } else d
    (d, some (src, dst))

/-- `Dma::is_transferring`. -/
def is_transferring (d : Dma) : Bool := d.active && d.delay == 0

/-- `Dma::read`. -/
def read (d : Dma) : Nat := d.value

/-- `Dma::write`. -/
def write (d : Dma) (value : Nat) : Dma := d.start value

end Dma

/-- lcd.rs `PpuMode` (STAT bits 0-1). -/
inductive PpuMode where
  | HBlank | VBlank | OamScan | Transfer
deriving DecidableEq

namespace PpuMode

/-- `PpuMode as u8`. -/
def toNat : PpuMode → Nat
  | .HBlank => 0
  | .VBlank => 1
  | .OamScan => 2
  | .Transfer => 3

/-- `PpuMode::from(u8)` (low two bits). -/
def fromNat (value : Nat) : PpuMode :=
  match value &&& 0x03 with
  | 0 => .HBlank
  | 1 => .VBlank
  | 2 => .OamScan
  | _ => .Transfer

end PpuMode

/-- lcd.rs `Lcd`: LCD register file. -/
structure Lcd where
  lcdc : Nat
  stat : Nat
  scy : Nat
  scx : Nat
  ly : Nat
  lyc : Nat
  bgp : Nat
  obp0 : Nat
  obp1 : Nat
  wy : Nat
  wx : Nat
  stat_interrupt : Bool
deriving DecidableEq

namespace Lcd

/-- `Lcd::new` (LCD enabled, mode 2). -/
def new : Lcd :=
  { lcdc := 0x91, stat := 0x02, scy := 0, scx := 0, ly := 0, lyc := 0,
    bgp := 0xFC, obp0 := 0xFF, obp1 := 0xFF, wy := 0, wx := 0,
    stat_interrupt := false }

/-- `Lcd::init`. -/
def init (_l : Lcd) : Lcd := new

/-- `Lcd::lcd_enabled` (LCDC bit 7). -/
def lcd_enabled (l : Lcd) : Bool := bit l.lcdc 7

/-- `Lcd::window_enabled` (LCDC bit 5). -/
def window_enabled (l : Lcd) : Bool := bit l.lcdc 5

/-- `Lcd::sprite_height` (LCDC bit 2). -/
def sprite_height (l : Lcd) : Nat := if bit l.lcdc 2 then 16 else 8

/-- `Lcd::mode` (STAT bits 0-1). -/
def mode (l : Lcd) : PpuMode := PpuMode.fromNat (l.stat &&& 0x03)

/-- `Lcd::lyc_int_enabled` (STAT bit 6). -/
def lyc_int_enabled (l : Lcd) : Bool := bit l.stat 6

/-- `Lcd::oam_int_enabled` (STAT bit 5). -/
def oam_int_enabled (l : Lcd) : Bool := bit l.stat 5

/-- `Lcd::vblank_int_enabled` (STAT bit 4). -/
def vblank_int_enabled (l : Lcd) : Bool := bit l.stat 4

/-- `Lcd::hblank_int_enabled` (STAT bit 3). -/
def hblank_int_enabled (l : Lcd) : Bool := bit l.stat 3

/-- `Lcd::set_lyc_flag` (STAT bit 2). -/
def set_lyc_flag (l : Lcd) (value : Bool) : Lcd :=
  { l with stat := bit_set l.stat 2 value }

/-- `Lcd::check_lyc`: recompute the coincidence flag; request the STAT
interrupt when it holds and the coincidence source is enabled. -/
def check_lyc (l : Lcd) : Lcd :=
  let coincidence := l.ly == l.lyc
  let l := l.set_lyc_flag coincidence
  if coincidence && l.lyc_int_enabled then { l with stat_interrupt := true }
  else l

/-- `Lcd::check_stat_interrupt`: request the STAT interrupt when the
mode-specific source is enabled. -/
def check_stat_interrupt (l : Lcd) : Lcd :=
  let should :=
    match l.mode with
    | .HBlank => l.hblank_int_enabled
    | .VBlank => l.vblank_int_enabled
    | .OamScan => l.oam_int_enabled
    | .Transfer => false
  if should then { l with stat_interrupt := true } else l

/-- `Lcd::set_mode` (STAT bits 0-1), then check the STAT sources. -/
def set_mode (l : Lcd) (m : PpuMode) : Lcd :=
  ({ l with stat := (l.stat &&& 0xFC) ||| m.toNat }).check_stat_interrupt

/-- `Lcd::set_ly`. -/
def set_ly (l : Lcd) (value : Nat) : Lcd :=
  ({ l with ly := value }).check_lyc

/-- `Lcd::inc_ly`: advance LY, wrapping to 0 after 153, and re-check the
LY=LYC coincidence. -/
def inc_ly (l : Lcd) : Lcd :=
  let l := { l with ly := wadd8 l.ly 1 }
  let l := if l.ly > 153 then { l with ly := 0 } else l
  l.check_lyc

/-- `Lcd::clear_stat_interrupt`. -/
def clear_stat_interrupt (l : Lcd) : Lcd := { l with stat_interrupt := false }

end Lcd

/-- ppu/mod.rs `SCREEN_HEIGHT`. -/
def SCREEN_HEIGHT : Nat := 144

/-- ppu/mod.rs `LINES_PER_FRAME`. -/
def LINES_PER_FRAME : Nat := 154

/-- ppu/mod.rs `TICKS_PER_LINE`. -/
def TICKS_PER_LINE : Nat := 456

/-- ppu/mod.rs `Ppu`, restricted to the fields driving the mode state
machine. VRAM, OAM, the video buffer and the per-scanline sprite list are
consumed only by the sprite-scan and pixel-rendering stages, whose outputs
(sprite list, pixels) never feed back into the mode machine; they are not
modelled here. -/
structure Ppu where
  line_ticks : Nat
  window_line : Nat
  current_frame : Nat
  vblank_interrupt : Bool
deriving DecidableEq

namespace Ppu

/-- `Ppu::new` restricted to the modelled fields. -/
def new : Ppu := ⟨0, 0, 0, false⟩

/-- `Ppu::scan_oam`: builds the scanline sprite list. It writes only
`line_sprites`/`sprite_count`, which are outside the modelled state, so on
the modelled fields it is the identity. -/
def scan_oam (p : Ppu) (_l : Lcd) : Ppu := p

/-- `Ppu::render_scanline` restricted to the modelled fields: pixels go to
the unmodelled video buffer; the one modelled effect is the window-line
increment, guarded exactly as in the source (early return when LY is past
the visible area, increment when the window overlaps the scanline). -/
def render_scanline (p : Ppu) (l : Lcd) : Ppu :=
  if l.ly ≥ SCREEN_HEIGHT then p
  else if l.window_enabled ∧ l.wy ≤ l.ly ∧ l.wx ≤ 166 then
    { p with window_line := wadd8 p.window_line 1 }
  else p

/-- `Ppu::mode_oam_scan` (mode 2): after 80 T-cycles scan OAM and move to
mode 3. -/
def mode_oam_scan (p : Ppu) (l : Lcd) : Ppu × Lcd :=
  if p.line_ticks ≥ 80 then
    let p := p.scan_oam l
    (p, l.set_mode .Transfer)
  else (p, l)

/-- `Ppu::mode_transfer` (mode 3): fixed 172 T-cycles, then render the
scanline and move to mode 0. -/
def mode_transfer (p : Ppu) (l : Lcd) : Ppu × Lcd :=
  if p.line_ticks ≥ 80 + 172 then
    let p := p.render_scanline l
    (p, l.set_mode .HBlank)
  else (p, l)

/-- `Ppu::mode_hblank` (mode 0): at 456 T-cycles advance LY; at LY 144
enter VBlank (requesting the VBlank interrupt), otherwise back to mode 2. -/
def mode_hblank (p : Ppu) (l : Lcd) : Ppu × Lcd :=
  if p.line_ticks ≥ TICKS_PER_LINE then
    let p := { p with line_ticks := 0 }
    let l := l.inc_ly
    if l.ly ≥ SCREEN_HEIGHT then
      let l := l.set_mode .VBlank
      (({ p with vblank_interrupt := true, current_frame := p.current_frame + 1 }), l)
    else (p, l.set_mode .OamScan)
  else (p, l)

/-- `Ppu::mode_vblank` (mode 1): at 456 T-cycles advance LY; the exit test
compares the already-wrapped LY against `LINES_PER_FRAME`. -/
def mode_vblank (p : Ppu) (l : Lcd) : Ppu × Lcd :=
  if p.line_ticks ≥ TICKS_PER_LINE then
    let p := { p with line_ticks := 0 }
    let l := l.inc_ly
    if l.ly ≥ LINES_PER_FRAME then
      let l := (l.set_ly 0).set_mode .OamScan
      ({ p with window_line := 0 }, l)
    else (p, l)
  else (p, l)

/-- `Ppu::tick`: one T-cycle of the mode machine (suspended while the LCD
is disabled). -/
def tick (p : Ppu) (l : Lcd) : Ppu × Lcd :=
  if ¬l.lcd_enabled then (p, l)
  else
    let p := { p with line_ticks := p.line_ticks + 1 }
    match l.mode with
    | .OamScan => p.mode_oam_scan l
    | .Transfer => p.mode_transfer l
    | .HBlank => p.mode_hblank l
    | .VBlank => p.mode_vblank l

end Ppu

/-- apu/channels.rs `Channel1` (square wave with sweep). The register-write
side and the trigger path — everything reachable from `Apu::write` — are
embedded; the per-T-cycle `tick*`/`output` generators are not needed by
the claims under check and are omitted. -/
structure Channel1 where
  enabled : Bool
  dac_enabled : Bool
  sweep_period : Nat
  sweep_negate : Bool
  sweep_shift : Nat
  sweep_timer : Nat
  sweep_enabled : Bool
  sweep_shadow : Nat
  duty : Nat
  length_counter : Nat
  volume : Nat
  volume_initial : Nat
  envelope_add : Bool
  envelope_period : Nat
  envelope_timer : Nat
  frequency : Nat
  length_enabled : Bool
  timer : Nat
  duty_position : Nat
deriving DecidableEq

namespace Channel1

/-- `Channel1::new`. -/
def new : Channel1 :=
  { enabled := false, dac_enabled := false, sweep_period := 0,
    sweep_negate := false, sweep_shift := 0, sweep_timer := 0,
    sweep_enabled := false, sweep_shadow := 0, duty := 0, length_counter := 0,
    volume := 0, volume_initial := 0, envelope_add := false,
    envelope_period := 0, envelope_timer := 0, frequency := 0,
    length_enabled := false, timer := 0, duty_position := 0 }

/-- `Channel1::calculate_sweep`: compute the swept frequency and disable
the channel on overflow past 2047. -/
def calculate_sweep (c : Channel1) : Channel1 × Nat :=
  let new_freq := c.sweep_shadow >>> c.sweep_shift
  let new_freq :=
    if c.sweep_negate then wsub16 c.sweep_shadow new_freq
    else wadd16 c.sweep_shadow new_freq
  (if new_freq > 2047 then { c with enabled := false } else c, new_freq)

/-- `Channel1::trigger` (NR14 bit 7). The source's sequential field
assignments never read a field written earlier in the sequence, so they
are gathered into one record update; the sweep-overflow check then runs on
the updated state exactly as in the source. -/
def trigger (c : Channel1) : Channel1 :=
  let c2 : Channel1 :=
    { c with enabled := c.dac_enabled,
             length_counter := if c.length_counter = 0 then 64 else c.length_counter,
             timer := (2048 - c.frequency) * 4,
             envelope_timer := c.envelope_period, volume := c.volume_initial,
             sweep_shadow := c.frequency,
             sweep_timer := if c.sweep_period > 0 then c.sweep_period else 8,
             sweep_enabled := decide (c.sweep_period > 0 ∨ c.sweep_shift > 0) }
  if c2.sweep_shift > 0 then c2.calculate_sweep.1 else c2

/-- `Channel1::write_nr10`. -/
def write_nr10 (c : Channel1) (value : Nat) : Channel1 :=
  { c with sweep_period := (value >>> 4) &&& 0x07,
           sweep_negate := value &&& 0x08 != 0,
           sweep_shift := value &&& 0x07 }

/-- `Channel1::write_nr11`. -/
def write_nr11 (c : Channel1) (value : Nat) : Channel1 :=
  { c with duty := (value >>> 6) &&& 0x03,
           length_counter := 64 - (value &&& 0x3F) }

/-- `Channel1::write_nr12` (upper five bits zero disables the DAC and the
channel). -/
def write_nr12 (c : Channel1) (value : Nat) : Channel1 :=
  let c := { c with volume_initial := (value >>> 4) &&& 0x0F,
                    envelope_add := value &&& 0x08 != 0,
                    envelope_period := value &&& 0x07,
                    dac_enabled := value &&& 0xF8 != 0 }
  if ¬c.dac_enabled then { c with enabled := false } else c

/-- `Channel1::write_nr13`. -/
def write_nr13 (c : Channel1) (value : Nat) : Channel1 :=
  { c with frequency := (c.frequency &&& 0x700) ||| value }

/-- `Channel1::write_nr14`. -/
def write_nr14 (c : Channel1) (value : Nat) : Channel1 :=
  let c := { c with length_enabled := value &&& 0x40 != 0,
                    frequency := (c.frequency &&& 0xFF) ||| ((value &&& 0x07) <<< 8) }
  if value &&& 0x80 != 0 then c.trigger else c

end Channel1

/-- apu/channels.rs `Channel2` (square wave, no sweep); write side only,
as for `Channel1`. -/
structure Channel2 where
  enabled : Bool
  dac_enabled : Bool
  duty : Nat
  length_counter : Nat
  volume : Nat
  volume_initial : Nat
  envelope_add : Bool
  envelope_period : Nat
  envelope_timer : Nat
  frequency : Nat
  length_enabled : Bool
  timer : Nat
  duty_position : Nat
deriving DecidableEq

namespace Channel2

/-- `Channel2::new`. -/
def new : Channel2 :=
  { enabled := false, dac_enabled := false, duty := 0, length_counter := 0,
    volume := 0, volume_initial := 0, envelope_add := false,
    envelope_period := 0, envelope_timer := 0, frequency := 0,
    length_enabled := false, timer := 0, duty_position := 0 }

/-- `Channel2::trigger`. -/
def trigger (c : Channel2) : Channel2 :=
  let c := { c with enabled := c.dac_enabled }
  let c := if c.length_counter = 0 then { c with length_counter := 64 } else c
  { c with timer := (2048 - c.frequency) * 4,
           envelope_timer := c.envelope_period, volume := c.volume_initial }

/-- `Channel2::write_nr21`. -/
def write_nr21 (c : Channel2) (value : Nat) : Channel2 :=
  { c with duty := (value >>> 6) &&& 0x03,
           length_counter := 64 - (value &&& 0x3F) }

/-- `Channel2::write_nr22`. -/
def write_nr22 (c : Channel2) (value : Nat) : Channel2 :=
  let c := { c with volume_initial := (value >>> 4) &&& 0x0F,
                    envelope_add := value &&& 0x08 != 0,
                    envelope_period := value &&& 0x07,
                    dac_enabled := value &&& 0xF8 != 0 }
  if ¬c.dac_enabled then { c with enabled := false } else c

/-- `Channel2::write_nr23`. -/
def write_nr23 (c : Channel2) (value : Nat) : Channel2 :=
  { c with frequency := (c.frequency &&& 0x700) ||| value }

/-- `Channel2::write_nr24`. -/
def write_nr24 (c : Channel2) (value : Nat) : Channel2 :=
  let c := { c with length_enabled := value &&& 0x40 != 0,
                    frequency := (c.frequency &&& 0xFF) ||| ((value &&& 0x07) <<< 8) }
  if value &&& 0x80 != 0 then c.trigger else c

end Channel2

/-- apu/channels.rs `Channel3` (wave); write side only, as for
`Channel1`. The 16-byte wave RAM is a list. -/
structure Channel3 where
  enabled : Bool
  dac_enabled : Bool
  length_counter : Nat
  volume_code : Nat
  frequency : Nat
  length_enabled : Bool
  wave_ram : List Nat
  timer : Nat
  wave_position : Nat
deriving DecidableEq

namespace Channel3

/-- `Channel3::new`. -/
def new : Channel3 :=
  { enabled := false, dac_enabled := false, length_counter := 0,
    volume_code := 0, frequency := 0, length_enabled := false,
    wave_ram := List.replicate 16 0, timer := 0, wave_position := 0 }

/-- `Channel3::trigger`. -/
def trigger (c : Channel3) : Channel3 :=
  let c := { c with enabled := c.dac_enabled }
  let c := if c.length_counter = 0 then { c with length_counter := 256 } else c
  { c with timer := (2048 - c.frequency) * 2, wave_position := 0 }

/-- `Channel3::write_nr30` (bit 7 is the DAC enable). -/
def write_nr30 (c : Channel3) (value : Nat) : Channel3 :=
  let c := { c with dac_enabled := value &&& 0x80 != 0 }
  if ¬c.dac_enabled then { c with enabled := false } else c

/-- `Channel3::write_nr31` (8-bit length, initial 256). -/
def write_nr31 (c : Channel3) (value : Nat) : Channel3 :=
  { c with length_counter := 256 - value }

/-- `Channel3::write_nr32`. -/
def write_nr32 (c : Channel3) (value : Nat) : Channel3 :=
  { c with volume_code := (value >>> 5) &&& 0x03 }

/-- `Channel3::write_nr33`. -/
def write_nr33 (c : Channel3) (value : Nat) : Channel3 :=
  { c with frequency := (c.frequency &&& 0x700) ||| value }

/-- `Channel3::write_nr34`. -/
def write_nr34 (c : Channel3) (value : Nat) : Channel3 :=
  let c := { c with length_enabled := value &&& 0x40 != 0,
                    frequency := (c.frequency &&& 0xFF) ||| ((value &&& 0x07) <<< 8) }
  if value &&& 0x80 != 0 then c.trigger else c

/-- `Channel3::read_wave_ram`. -/
def read_wave_ram (c : Channel3) (address : Nat) : Nat :=
  c.wave_ram.getD (address - 0xFF30) 0

/-- `Channel3::write_wave_ram`. -/
def write_wave_ram (c : Channel3) (address value : Nat) : Channel3 :=
  { c with wave_ram := c.wave_ram.set (address - 0xFF30) value }

end Channel3

/-- apu/channels.rs `Channel4` (noise); write side only, as for
`Channel1`. -/
structure Channel4 where
  enabled : Bool
  dac_enabled : Bool
  length_counter : Nat
  volume : Nat
  volume_initial : Nat
  envelope_add : Bool
  envelope_period : Nat
  envelope_timer : Nat
  clock_shift : Nat
  width_mode : Bool
  divisor_code : Nat
  length_enabled : Bool
  timer : Nat
  lfsr : Nat
deriving DecidableEq

namespace Channel4

/-- `Channel4::new` (LFSR seeded to 0x7FFF). -/
def new : Channel4 :=
  { enabled := false, dac_enabled := false, length_counter := 0, volume := 0,
    volume_initial := 0, envelope_add := false, envelope_period := 0,
    envelope_timer := 0, clock_shift := 0, width_mode := false,
    divisor_code := 0, length_enabled := false, timer := 0, lfsr := 0x7FFF }

/-- `Channel4::get_timer_period` (divisor 8 for code 0, else 16·code,
shifted by the clock shift). -/
def get_timer_period (c : Channel4) : Nat :=
  let divisor := if c.divisor_code = 0 then 8 else c.divisor_code * 16
  divisor <<< c.clock_shift

/-- `Channel4::trigger`. -/
def trigger (c : Channel4) : Channel4 :=
  let c := { c with enabled := c.dac_enabled }
  let c := if c.length_counter = 0 then { c with length_counter := 64 } else c
  { c with timer := c.get_timer_period, envelope_timer := c.envelope_period,
           volume := c.volume_initial, lfsr := 0x7FFF }

/-- `Channel4::write_nr41`. -/
def write_nr41 (c : Channel4) (value : Nat) : Channel4 :=
  { c with length_counter := 64 - (value &&& 0x3F) }

/-- `Channel4::write_nr42`. -/
def write_nr42 (c : Channel4) (value : Nat) : Channel4 :=
  let c := { c with volume_initial := (value >>> 4) &&& 0x0F,
                    envelope_add := value &&& 0x08 != 0,
                    envelope_period := value &&& 0x07,
                    dac_enabled := value &&& 0xF8 != 0 }
  if ¬c.dac_enabled then { c with enabled := false } else c

/-- `Channel4::write_nr43`. -/
def write_nr43 (c : Channel4) (value : Nat) : Channel4 :=
  { c with clock_shift := (value >>> 4) &&& 0x0F,
           width_mode := value &&& 0x08 != 0,
           divisor_code := value &&& 0x07 }

/-- `Channel4::write_nr44`. -/
def write_nr44 (c : Channel4) (value : Nat) : Channel4 :=
  let c := { c with length_enabled := value &&& 0x40 != 0 }
  if value &&& 0x80 != 0 then c.trigger else c

end Channel4

/-- apu/mod.rs `Apu`: the four channels plus master registers. The frame
sequencer, mixer and sample path (`tick`/`generate_sample`/buffers) are
advanced outside the register-write path and are not needed by the claims
under check; their fields are kept and their functions omitted. -/
structure Apu where
  ch1 : Channel1
  ch2 : Channel2
  ch3 : Channel3
  ch4 : Channel4
  nr50 : Nat
  nr51 : Nat
  nr52 : Nat
  frame_sequencer_timer : Nat
  frame_sequencer_step : Nat
  sample_timer : Nat
  buffer_pos : Nat
  enabled : Bool
deriving DecidableEq

namespace Apu

/-- `Apu::new`. -/
def new : Apu :=
  { ch1 := Channel1.new, ch2 := Channel2.new, ch3 := Channel3.new,
    ch4 := Channel4.new, nr50 := 0x77, nr51 := 0xF3, nr52 := 0xF1,
    frame_sequencer_timer := 0, frame_sequencer_step := 0, sample_timer := 0,
    buffer_pos := 0, enabled := true }

/-- `Apu::read` for NR52: power bit, channel-alive bits, bits 4-6 high. -/
def read_nr52 (a : Apu) : Nat :=
  let result := a.nr52 &&& 0x80
  let result := if a.ch1.enabled then result ||| 0x01 else result
  let result := if a.ch2.enabled then result ||| 0x02 else result
  let result := if a.ch3.enabled then result ||| 0x04 else result
  let result := if a.ch4.enabled then result ||| 0x08 else result
  result ||| 0x70

/-- `Apu::write`: while the APU is powered off only NR52 and wave RAM are
writable; clearing NR52 bit 7 resets all four channels and zeroes
NR50/NR51. -/
def write (a : Apu) (address value : Nat) : Apu :=
  if ¬a.enabled ∧ address ≠ 0xFF26 ∧ ¬(0xFF30 ≤ address ∧ address ≤ 0xFF3F) then a
  else if address = 0xFF10 then { a with ch1 := a.ch1.write_nr10 value }
  else if address = 0xFF11 then { a with ch1 := a.ch1.write_nr11 value }
  else if address = 0xFF12 then { a with ch1 := a.ch1.write_nr12 value }
  else if address = 0xFF13 then { a with ch1 := a.ch1.write_nr13 value }
  else if address = 0xFF14 then { a with ch1 := a.ch1.write_nr14 value }
  else if address = 0xFF16 then { a with ch2 := a.ch2.write_nr21 value }
  else if address = 0xFF17 then { a with ch2 := a.ch2.write_nr22 value }
  else if address = 0xFF18 then { a with ch2 := a.ch2.write_nr23 value }
  else if address = 0xFF19 then { a with ch2 := a.ch2.write_nr24 value }
  else if address = 0xFF1A then { a with ch3 := a.ch3.write_nr30 value }
  else if address = 0xFF1B then { a with ch3 := a.ch3.write_nr31 value }
  else if address = 0xFF1C then { a with ch3 := a.ch3.write_nr32 value }
  else if address = 0xFF1D then { a with ch3 := a.ch3.write_nr33 value }
  else if address = 0xFF1E then { a with ch3 := a.ch3.write_nr34 value }
  else if 0xFF30 ≤ address ∧ address ≤ 0xFF3F then
    { a with ch3 := a.ch3.write_wave_ram address value }
  else if address = 0xFF20 then { a with ch4 := a.ch4.write_nr41 value }
  else if address = 0xFF21 then { a with ch4 := a.ch4.write_nr42 value }
  else if address = 0xFF22 then { a with ch4 := a.ch4.write_nr43 value }
  else if address = 0xFF23 then { a with ch4 := a.ch4.write_nr44 value }
  else if address = 0xFF24 then { a with nr50 := value }
  else if address = 0xFF25 then { a with nr51 := value }
  else if address = 0xFF26 then
    let was_enabled := a.enabled
    let a := { a with enabled := value &&& 0x80 != 0, nr52 := value &&& 0x80 }
    if was_enabled ∧ ¬(value &&& 0x80 != 0 : Bool) then
      { a with ch1 := Channel1.new, ch2 := Channel2.new, ch3 := Channel3.new,
               ch4 := Channel4.new, nr50 := 0, nr51 := 0 }
    else a
  else a

end Apu

namespace Emulator

/-- emu.rs `Emulator::check_dma_start`: when the DMA register (0xFF46) was
written since the last check, start the DMA engine from the stored byte and
raise the bus-side DMA-active flag. -/
def check_dma_start (bus : Bus) (dma : Dma) : Bus × Dma :=
  let (bus, written) := bus.take_io_written 0x46
  if written then (bus.set_dma_active true, dma.start (bus.io_regs 0x46))
  else (bus, dma)

/-- emu.rs `Emulator::step`, restricted to the state that determines the
cycle accounting and the CPU/bus/DMA effects before the peripheral tick:
IE/IF mirroring, DMA-start detection, interrupt dispatch (5 M-cycles), the
EI delay, the halted idle (1 M-cycle), and otherwise
fetch-decode-fetch-operands-execute. The returned number is the T-cycle
count handed to `tick_components`, which consumes it without changing it
(the `t_cycles == 0` case ticks 4). The peripheral register mirrors
(`sync_lcd_from_bus` and friends) copy bytes between the bus backing store
and peripheral-side state and touch neither the CPU nor the counter.
`none` models the `proc_none` panic on an undefined opcode. For the
embedding the body is split at the source's early-return boundaries:
`step_run` is the halted-idle-or-instruction tail, `step_no_interrupt` the
continuation after a non-dispatching interrupt check. -/
def step_run (cpu : Cpu) (bus : Bus) (dma : Dma) :
    Option (Cpu × Bus × Dma × Nat) :=
  if cpu.halted then
    let cpu := cpu.add_m_cycles 1
    let ct := cpu.take_t_cycles
    let cpu := if ct.1.interrupts_pending then { ct.1 with halted := false } else ct.1
    some (cpu, bus, dma, ct.2)
  else
    let cpu := cpu.fetch_instruction bus
    let cpu := cpu.fetch_data bus
    match cpu.execute bus with
    | none => none
    | some cb =>
      let cpu : Cpu := { cb.1 with ie_register := cb.2.ie_register, int_flags := cb.2.int_flags }
      let bd2 := check_dma_start cb.2 dma
      let ct : Cpu × Nat := cpu.take_t_cycles
      if ct.2 = 0 then some (ct.1, bd2.1, bd2.2, 4) else some (ct.1, bd2.1, bd2.2, ct.2)

/-- Continuation of `step_cycles` when no interrupt was dispatched: IF
write-back, EI-delay resolution, then the halted idle or the instruction
(in `step_run`). -/
def step_no_interrupt (cpu : Cpu) (bus : Bus) (dma : Dma) :
    Option (Cpu × Bus × Dma × Nat) :=
  let bus := { bus with int_flags := cpu.int_flags }
  let cpu :=
    if cpu.enabling_ime then { cpu with enabling_ime := false, ime := true }
    else cpu
  step_run cpu bus dma

def step_cycles (cpu : Cpu) (bus : Bus) (dma : Dma) :
    Option (Cpu × Bus × Dma × Nat) :=
  let cpu := cpu.reset_step_cycles
  let cpu := { cpu with ie_register := bus.ie_register, int_flags := bus.int_flags }
  let bd := check_dma_start bus dma
  let bus := bd.1
  let dma := bd.2
  let hi := cpu.handle_interrupts bus
  let cpu := hi.1
  let bus := hi.2.1
  if hi.2.2 then
    let cpu := cpu.add_m_cycles 5
    let ct := cpu.take_t_cycles
    some (ct.1, bus, dma, ct.2)
  else step_no_interrupt cpu bus dma

/-- emu.rs `Emulator::tick_components`, the DMA slice of one T-cycle: tick
the engine and, when it yields a transfer, copy the byte read over the bus
straight into OAM (the PPU-side OAM mirror receives the same byte and is
not modelled); finally drop the bus DMA-active flag once the engine is
idle. -/
def emu_dma_tick (dma : Dma) (bus : Bus) : Dma × Bus :=
  let (dma, transfer) := dma.tick
  let bus :=
    match transfer with
    | some (src, dst) =>
      let value := bus.read src
      { bus with oam := fun i => if i = dst - 0xFE00 then value else bus.oam i }
    | none => bus
  let bus := if ¬dma.active then bus.set_dma_active false else bus
  (dma, bus)

end Emulator

/-- C1 failing input: CPU at PC=0xC000, IME off, with WRAM holding the
bytes C3 34 12 — the taken unconditional `JP 0x1234`. -/
def c1_cpu : Cpu := { Cpu.new with regs := { Registers.new with pc := 0xC000 } }

/-- Bus for the C1 failing input (no cartridge; program in WRAM). -/
def c1_bus : Bus :=
  { Bus.new with ram := { Ram.new with wram := fun i =>
      if i = 0 then 0xC3 else if i = 1 then 0x34 else if i = 2 then 0x12 else 0 } }

/-- C2 failing input: A=0x00, carry flag set (F=0x10), operand 0xFF, about
to execute `SBC A,d8` (opcode 0xDE) with the operand already fetched. -/
def c2_cpu : Cpu :=
  { Cpu.new with regs := { Registers.new with a := 0x00, f := 0x10 },
                 fetched_data := 0xFF }

/-- C3 input: timer with TAC=0b101 (enabled, freq 01 → tap bit 3), the
internal counter with bit 3 set, TIMA=0. -/
def c3_timer : Timer :=
  { div := 0b1000, tima := 0x00, tma := 0x00, tac := 0b101, interrupt_requested := false }

/-- C4 witness input: an MBC1 cartridge with two 16 KiB ROM banks. -/
def c4_cart : Cartridge :=
  { rom_len := 0x8000, rom := fun i => if i = 0x4000 then 0x42 else 0,
    header := { cart_type := 0x01, rom_size := 1, ram_size := 0, lic_code := 0,
                version := 0, checksum := 0 },
    ram_enabled := false, rom_bank := 1, ram_bank := 0, banking_mode := 0,
    ram_len := 0, ram := fun _ => 0, battery := false, need_save := false }

/-- C5 witness inputs: a DMA engine mid-delay, one mid-transfer, and a bus
with the DMA-active gate raised. -/
def c5_dma_delay : Dma := { active := true, byte := 0, value := 0xC0, delay := 2 }

/-- C5 witness input: DMA engine past the startup delay, at byte 5. -/
def c5_dma_copy : Dma := { active := true, byte := 5, value := 0xC0, delay := 0 }

/-- C5 witness input: bus with the DMA-active gate raised. -/
def c5_bus : Bus := { Bus.new with dma_active := true }

/-- C6 witness input: CPU in the post-boot state (F=0xB0) about to run the
NOP at 0xC000 (WRAM is all zeroes). -/
def c6_cpu : Cpu := { Cpu.new with regs := { Registers.new with f := 0xB0, pc := 0xC000 } }

/-- C6 witness input: an empty bus. -/
def c6_bus : Bus := Bus.new

/-- C7 witness input: a powered-down APU with a nonzero NR51. -/
def c7_apu : Apu := { Apu.new with enabled := false, nr51 := 0xF3 }

/-- C8 failing input: LCD enabled, STAT mode 1 (VBlank), LY=153, at T-cycle
455 of the line — the tick that ends the last VBlank scanline. -/
def c8_lcd : Lcd := { Lcd.new with stat := 0x01, ly := 153 }

/-- PPU side of the C8 failing input. -/
def c8_ppu : Ppu := { Ppu.new with line_ticks := 455 }

/-- C9 witness input: a bus with no cartridge. -/
def c9_bus : Bus := Bus.new

/-- C10 witness input: a bus carrying the C4 MBC1 cartridge. -/
def c10_bus : Bus := { Bus.new with cart := some c4_cart }

/-- C9: the well-formedness carried by `u8` in the source — every stored
cartridge byte is an actual byte. -/
def CartWf (c : Cartridge) : Prop :=
  (∀ i, c.rom i < 256) ∧ (∀ i, c.ram i < 256)

/-- C9: the well-formedness carried by `u8` in the source — every byte
stored in a bus memory array or register is an actual byte. -/
def BusWf (b : Bus) : Prop :=
  (∀ i, b.ram.wram i < 256) ∧ (∀ i, b.ram.hram i < 256) ∧
  (∀ i, b.vram i < 256) ∧ (∀ i, b.oam i < 256) ∧ (∀ i, b.io_regs i < 256) ∧
  b.ie_register < 256 ∧ b.int_flags < 256 ∧
  (∀ c, b.cart = some c → CartWf c)

end Rgbe

namespace Rgbe

theorem and15_or (v p : Nat) (hp : p &&& 15 = 0) : (v ||| p) &&& 15 = v &&& 15 := by
  rw [Nat.and_comm (v ||| p) 15, Nat.and_or_distrib_left, Nat.and_comm 15 v,
    Nat.and_comm 15 p, hp, Nat.or_zero]

theorem and_f0_and15 (v : Nat) : (v &&& 0xF0) &&& 15 = 0 := by
  rw [Nat.and_assoc, show ((240 : Nat) &&& 15) = 0 from by decide, Nat.and_zero]

theorem and15_ite (P : Prop) [Decidable P] (a b : Nat) :
    (if P then a else b) &&& 15 = if P then a &&& 15 else b &&& 15 :=
  apply_ite (· &&& 15) P a b

theorem bit_set_high_and15 (v : Nat) (b : Bool) (n : Nat)
    (hn : n = 4 ∨ n = 5 ∨ n = 6 ∨ n = 7) :
    bit_set v n b &&& 15 = v &&& 15 := by
  have hp : (1 <<< n) &&& 15 = 0 := by rcases hn with h|h|h|h <;> subst h <;> decide
  have hm : (0xFF ^^^ (1 <<< n)) &&& 15 = 15 := by
    rcases hn with h|h|h|h <;> subst h <;> decide
  cases b with
  | true => simpa [bit_set] using and15_or v (1 <<< n) hp
  | false =>
    simp only [bit_set, Bool.false_eq_true, if_false]
    rw [Nat.and_assoc, hm]

theorem set_flag_z_f_and15 (r : Registers) (b : Bool) :
    (r.set_flag_z b).f &&& 15 = r.f &&& 15 :=
  bit_set_high_and15 r.f b 7 (by simp)

theorem set_flag_n_f_and15 (r : Registers) (b : Bool) :
    (r.set_flag_n b).f &&& 15 = r.f &&& 15 :=
  bit_set_high_and15 r.f b 6 (by simp)

theorem set_flag_h_f_and15 (r : Registers) (b : Bool) :
    (r.set_flag_h b).f &&& 15 = r.f &&& 15 :=
  bit_set_high_and15 r.f b 5 (by simp)

theorem set_flag_c_f_and15 (r : Registers) (b : Bool) :
    (r.set_flag_c b).f &&& 15 = r.f &&& 15 :=
  bit_set_high_and15 r.f b 4 (by simp)

theorem set_flags_f_and15 (r : Registers) (z n h c : Bool) :
    (r.set_flags z n h c).f &&& 15 = r.f &&& 15 := by
  rw [Registers.set_flags, set_flag_c_f_and15, set_flag_h_f_and15,
    set_flag_n_f_and15, set_flag_z_f_and15]

theorem set_af_f_and15 (r : Registers) (v : Nat) : (r.set_af v).f &&& 15 = 0 :=
  and_f0_and15 v

theorem write_reg_f_and15 (c : Cpu) (reg : RegisterType) (v : Nat)
    (h : c.regs.f &&& 15 = 0) : (c.write_reg reg v).regs.f &&& 15 = 0 := by
  cases reg <;>
    simp [Cpu.write_reg, Registers.set_af, Registers.set_bc, Registers.set_de,
      Registers.set_hl, h, and_f0_and15]

theorem write_reg8_f_and15 (c : Cpu) (reg : RegisterType) (v : Nat)
    (h : c.regs.f &&& 15 = 0) : (c.write_reg8 reg v).regs.f &&& 15 = 0 := by
  cases reg <;> simp [Cpu.write_reg8, h, and_f0_and15]

theorem stack_push8_f (c : Cpu) (b : Bus) (v : Nat) :
    (c.stack_push8 b v).1.regs.f = c.regs.f := by
  simp [Cpu.stack_push8]

theorem stack_push16_f (c : Cpu) (b : Bus) (v : Nat) :
    (c.stack_push16 b v).1.regs.f = c.regs.f := by
  simp [Cpu.stack_push16, Cpu.stack_push8]

theorem stack_pop8_f (c : Cpu) (b : Bus) : (c.stack_pop8 b).1.regs.f = c.regs.f := by
  simp [Cpu.stack_pop8]

theorem stack_pop16_f (c : Cpu) (b : Bus) : (c.stack_pop16 b).1.regs.f = c.regs.f := by
  simp [Cpu.stack_pop16, Cpu.stack_pop8]

theorem jump_to_if_f (c : Cpu) (addr : Nat) (cond : ConditionType) :
    (c.jump_to_if addr cond).regs.f = c.regs.f := by
  unfold Cpu.jump_to_if; split <;> rfl

theorem fetch_instruction_f (c : Cpu) (b : Bus) :
    (c.fetch_instruction b).regs.f = c.regs.f := by
  simp [Cpu.fetch_instruction]

theorem fetch_data_f (c : Cpu) (b : Bus) : (c.fetch_data b).regs.f = c.regs.f := by
  unfold Cpu.fetch_data
  cases c.cur_inst with
  | none => rfl
  | some inst =>
    obtain ⟨t, m, r1, r2, cnd, p⟩ := inst
    cases m <;> simp [Registers.set_hl]

theorem handle_interrupts_f (c : Cpu) (b : Bus) :
    (c.handle_interrupts b).1.regs.f = c.regs.f := by
  unfold Cpu.handle_interrupts
  split
  · rfl
  · cases c.get_pending_interrupt <;>
      simp [Cpu.stack_push16, Cpu.stack_push8, Cpu.clear_interrupt]

theorem write_cb_result_f (c : Cpu) (b : Bus) (reg : RegisterType) (v : Nat)
    (h : c.regs.f &&& 15 = 0) : (c.write_cb_result b reg v).1.regs.f &&& 15 = 0 := by
  unfold Cpu.write_cb_result
  split
  · exact h
  · exact write_reg8_f_and15 _ _ _ h

theorem proc_ld_f (c : Cpu) (b : Bus) (inst : Instruction) (h : c.regs.f &&& 15 = 0) :
    (c.proc_ld b inst).1.regs.f &&& 15 = 0 := by
  unfold Cpu.proc_ld
  try split_ifs
  all_goals
    simp_all [Cpu.add_m_cycles, set_flags_f_and15, write_reg_f_and15,
      apply_ite, and15_ite]

theorem proc_ldh_f (c : Cpu) (b : Bus) (inst : Instruction) (h : c.regs.f &&& 15 = 0) :
    (c.proc_ldh b inst).1.regs.f &&& 15 = 0 := by
  unfold Cpu.proc_ldh
  try split_ifs
  all_goals simp_all [Cpu.add_m_cycles]

theorem proc_inc_f (c : Cpu) (b : Bus) (inst : Instruction) (h : c.regs.f &&& 15 = 0) :
    (c.proc_inc b inst).1.regs.f &&& 15 = 0 := by
  unfold Cpu.proc_inc
  try split_ifs
  all_goals
    simp_all [Cpu.add_m_cycles, set_flag_z_f_and15, set_flag_n_f_and15,
      set_flag_h_f_and15, write_reg_f_and15, apply_ite, and15_ite]

theorem proc_dec_f (c : Cpu) (b : Bus) (inst : Instruction) (h : c.regs.f &&& 15 = 0) :
    (c.proc_dec b inst).1.regs.f &&& 15 = 0 := by
  unfold Cpu.proc_dec
  try split_ifs
  all_goals
    simp_all [Cpu.add_m_cycles, set_flag_z_f_and15, set_flag_n_f_and15,
      set_flag_h_f_and15, write_reg_f_and15, apply_ite, and15_ite]

theorem proc_add_f (c : Cpu) (inst : Instruction) (h : c.regs.f &&& 15 = 0) :
    (c.proc_add inst).regs.f &&& 15 = 0 := by
  unfold Cpu.proc_add
  try split_ifs
  all_goals
    simp_all [Cpu.add_m_cycles, set_flags_f_and15, write_reg_f_and15,
      apply_ite, and15_ite]

theorem proc_adc_f (c : Cpu) (h : c.regs.f &&& 15 = 0) :
    c.proc_adc.regs.f &&& 15 = 0 := by
  simp [Cpu.proc_adc, set_flags_f_and15, h]

theorem proc_sub_f (c : Cpu) (inst : Instruction) (h : c.regs.f &&& 15 = 0) :
    (c.proc_sub inst).regs.f &&& 15 = 0 := by
  simp [Cpu.proc_sub, set_flags_f_and15, write_reg_f_and15, h]

theorem proc_sbc_f (c : Cpu) (inst : Instruction) (h : c.regs.f &&& 15 = 0) :
    (c.proc_sbc inst).regs.f &&& 15 = 0 := by
  simp [Cpu.proc_sbc, set_flags_f_and15, write_reg_f_and15, h]

theorem proc_and_f (c : Cpu) (h : c.regs.f &&& 15 = 0) :
    c.proc_and.regs.f &&& 15 = 0 := by
  simp [Cpu.proc_and, set_flags_f_and15, h]

theorem proc_xor_f (c : Cpu) (h : c.regs.f &&& 15 = 0) :
    c.proc_xor.regs.f &&& 15 = 0 := by
  simp [Cpu.proc_xor, set_flags_f_and15, h]

theorem proc_or_f (c : Cpu) (h : c.regs.f &&& 15 = 0) :
    c.proc_or.regs.f &&& 15 = 0 := by
  simp [Cpu.proc_or, set_flags_f_and15, h]

theorem proc_cp_f (c : Cpu) (h : c.regs.f &&& 15 = 0) :
    c.proc_cp.regs.f &&& 15 = 0 := by
  simp [Cpu.proc_cp, set_flags_f_and15, h]

theorem proc_jr_f (c : Cpu) (inst : Instruction) (h : c.regs.f &&& 15 = 0) :
    (c.proc_jr inst).regs.f &&& 15 = 0 := by
  simp [Cpu.proc_jr, jump_to_if_f, h]

theorem proc_jp_f (c : Cpu) (inst : Instruction) (h : c.regs.f &&& 15 = 0) :
    (c.proc_jp inst).regs.f &&& 15 = 0 := by
  simp [Cpu.proc_jp, jump_to_if_f, h]

theorem proc_call_f (c : Cpu) (b : Bus) (inst : Instruction) (h : c.regs.f &&& 15 = 0) :
    (c.proc_call b inst).1.regs.f &&& 15 = 0 := by
  unfold Cpu.proc_call
  try split_ifs
  all_goals simp_all [Cpu.add_m_cycles, Cpu.stack_push16, Cpu.stack_push8]

theorem proc_ret_f (c : Cpu) (b : Bus) (inst : Instruction) (h : c.regs.f &&& 15 = 0) :
    (c.proc_ret b inst).1.regs.f &&& 15 = 0 := by
  unfold Cpu.proc_ret
  try split_ifs
  all_goals simp_all [Cpu.add_m_cycles, Cpu.stack_pop16, Cpu.stack_pop8,
    apply_ite, and15_ite]

theorem proc_reti_f (c : Cpu) (b : Bus) (h : c.regs.f &&& 15 = 0) :
    (c.proc_reti b).1.regs.f &&& 15 = 0 := by
  simp [Cpu.proc_reti, Cpu.add_m_cycles, Cpu.stack_pop16, Cpu.stack_pop8, h]

theorem proc_rst_f (c : Cpu) (b : Bus) (inst : Instruction) (h : c.regs.f &&& 15 = 0) :
    (c.proc_rst b inst).1.regs.f &&& 15 = 0 := by
  simp [Cpu.proc_rst, Cpu.add_m_cycles, Cpu.stack_push16, Cpu.stack_push8, h]

theorem proc_pop_f (c : Cpu) (b : Bus) (inst : Instruction) (h : c.regs.f &&& 15 = 0) :
    (c.proc_pop b inst).1.regs.f &&& 15 = 0 := by
  unfold Cpu.proc_pop
  try split_ifs
  all_goals
    first
    | (apply write_reg_f_and15
       simp [Cpu.add_m_cycles, Cpu.stack_pop16, Cpu.stack_pop8, h])
    | simp [and_f0_and15]

theorem proc_push_f (c : Cpu) (b : Bus) (inst : Instruction) (h : c.regs.f &&& 15 = 0) :
    (c.proc_push b inst).1.regs.f &&& 15 = 0 := by
  simp [Cpu.proc_push, Cpu.add_m_cycles, Cpu.stack_push16, Cpu.stack_push8, h]

theorem proc_rlca_f (c : Cpu) (h : c.regs.f &&& 15 = 0) :
    c.proc_rlca.regs.f &&& 15 = 0 := by
  simp [Cpu.proc_rlca, set_flags_f_and15, h]

theorem proc_rrca_f (c : Cpu) (h : c.regs.f &&& 15 = 0) :
    c.proc_rrca.regs.f &&& 15 = 0 := by
  simp [Cpu.proc_rrca, set_flags_f_and15, h]

theorem proc_rla_f (c : Cpu) (h : c.regs.f &&& 15 = 0) :
    c.proc_rla.regs.f &&& 15 = 0 := by
  simp [Cpu.proc_rla, set_flags_f_and15, h]

theorem proc_rra_f (c : Cpu) (h : c.regs.f &&& 15 = 0) :
    c.proc_rra.regs.f &&& 15 = 0 := by
  simp [Cpu.proc_rra, set_flags_f_and15, h]

theorem proc_daa_f (c : Cpu) (h : c.regs.f &&& 15 = 0) :
    c.proc_daa.regs.f &&& 15 = 0 := by
  simp [Cpu.proc_daa, set_flag_z_f_and15, set_flag_h_f_and15, set_flag_c_f_and15, h]

theorem proc_cpl_f (c : Cpu) (h : c.regs.f &&& 15 = 0) :
    c.proc_cpl.regs.f &&& 15 = 0 := by
  simp [Cpu.proc_cpl, set_flag_n_f_and15, set_flag_h_f_and15, h]

theorem proc_scf_f (c : Cpu) (h : c.regs.f &&& 15 = 0) :
    c.proc_scf.regs.f &&& 15 = 0 := by
  simp [Cpu.proc_scf, set_flag_n_f_and15, set_flag_h_f_and15, set_flag_c_f_and15, h]

theorem proc_ccf_f (c : Cpu) (h : c.regs.f &&& 15 = 0) :
    c.proc_ccf.regs.f &&& 15 = 0 := by
  simp [Cpu.proc_ccf, set_flag_n_f_and15, set_flag_h_f_and15, set_flag_c_f_and15, h]

theorem proc_cb_core_f (c : Cpu) (b : Bus) (reg : RegisterType)
    (bitIdx reg_val bit_op op : Nat) (h : c.regs.f &&& 15 = 0) :
    (c.proc_cb_core b reg bitIdx reg_val bit_op op).1.regs.f &&& 15 = 0 := by
  unfold Cpu.proc_cb_core
  dsimp only
  split_ifs
  all_goals
    simp_all [set_flag_z_f_and15, set_flag_n_f_and15, set_flag_h_f_and15,
      set_flags_f_and15, write_cb_result_f]

theorem proc_cb_f (c : Cpu) (b : Bus) (h : c.regs.f &&& 15 = 0) :
    (c.proc_cb b).1.regs.f &&& 15 = 0 := by
  unfold Cpu.proc_cb
  dsimp only
  apply proc_cb_core_f
  split_ifs <;> simp [Cpu.add_m_cycles, h]

theorem execute_f (c : Cpu) (b : Bus) (h : c.regs.f &&& 15 = 0) :
    ∀ r ∈ c.execute b, r.1.regs.f &&& 15 = 0 := by
  intro r hr
  rw [Option.mem_def] at hr
  unfold Cpu.execute at hr
  cases hc : c.cur_inst with
  | none => rw [hc] at hr; cases hr; exact h
  | some inst =>
    rw [hc] at hr
    dsimp only at hr
    cases ht : inst.inst_type with
    | None => rw [ht] at hr; dsimp only at hr; exact absurd hr (by simp)
    | Nop => rw [ht] at hr; dsimp only at hr; cases hr; exact h
    | Ld => rw [ht] at hr; dsimp only at hr; cases hr; exact proc_ld_f c b inst h
    | Ldh => rw [ht] at hr; dsimp only at hr; cases hr; exact proc_ldh_f c b inst h
    | Inc => rw [ht] at hr; dsimp only at hr; cases hr; exact proc_inc_f c b inst h
    | Dec => rw [ht] at hr; dsimp only at hr; cases hr; exact proc_dec_f c b inst h
    | Add => rw [ht] at hr; dsimp only at hr; cases hr; exact proc_add_f c inst h
    | Adc => rw [ht] at hr; dsimp only at hr; cases hr; exact proc_adc_f c h
    | Sub => rw [ht] at hr; dsimp only at hr; cases hr; exact proc_sub_f c inst h
    | Sbc => rw [ht] at hr; dsimp only at hr; cases hr; exact proc_sbc_f c inst h
    | And => rw [ht] at hr; dsimp only at hr; cases hr; exact proc_and_f c h
    | Xor => rw [ht] at hr; dsimp only at hr; cases hr; exact proc_xor_f c h
    | Or => rw [ht] at hr; dsimp only at hr; cases hr; exact proc_or_f c h
    | Cp => rw [ht] at hr; dsimp only at hr; cases hr; exact proc_cp_f c h
    | Jr => rw [ht] at hr; dsimp only at hr; cases hr; exact proc_jr_f c inst h
    | Jp => rw [ht] at hr; dsimp only at hr; cases hr; exact proc_jp_f c inst h
    | Call => rw [ht] at hr; dsimp only at hr; cases hr; exact proc_call_f c b inst h
    | Ret => rw [ht] at hr; dsimp only at hr; cases hr; exact proc_ret_f c b inst h
    | Reti => rw [ht] at hr; dsimp only at hr; cases hr; exact proc_reti_f c b h
    | Rst => rw [ht] at hr; dsimp only at hr; cases hr; exact proc_rst_f c b inst h
    | Pop => rw [ht] at hr; dsimp only at hr; cases hr; exact proc_pop_f c b inst h
    | Push => rw [ht] at hr; dsimp only at hr; cases hr; exact proc_push_f c b inst h
    | Rlca => rw [ht] at hr; dsimp only at hr; cases hr; exact proc_rlca_f c h
    | Rrca => rw [ht] at hr; dsimp only at hr; cases hr; exact proc_rrca_f c h
    | Rla => rw [ht] at hr; dsimp only at hr; cases hr; exact proc_rla_f c h
    | Rra => rw [ht] at hr; dsimp only at hr; cases hr; exact proc_rra_f c h
    | Stop => rw [ht] at hr; dsimp only at hr; cases hr; exact h
    | Halt => rw [ht] at hr; dsimp only at hr; cases hr; exact h
    | Daa => rw [ht] at hr; dsimp only at hr; cases hr; exact proc_daa_f c h
    | Cpl => rw [ht] at hr; dsimp only at hr; cases hr; exact proc_cpl_f c h
    | Scf => rw [ht] at hr; dsimp only at hr; cases hr; exact proc_scf_f c h
    | Ccf => rw [ht] at hr; dsimp only at hr; cases hr; exact proc_ccf_f c h
    | Di => rw [ht] at hr; dsimp only at hr; cases hr; exact h
    | Ei => rw [ht] at hr; dsimp only at hr; cases hr; exact h
    | Cb => rw [ht] at hr; dsimp only at hr; cases hr; exact proc_cb_f c b h
    | Rlc => rw [ht] at hr; dsimp only at hr; cases hr; exact h
    | Rrc => rw [ht] at hr; dsimp only at hr; cases hr; exact h
    | Rl => rw [ht] at hr; dsimp only at hr; cases hr; exact h
    | Rr => rw [ht] at hr; dsimp only at hr; cases hr; exact h
    | Sla => rw [ht] at hr; dsimp only at hr; cases hr; exact h
    | Sra => rw [ht] at hr; dsimp only at hr; cases hr; exact h
    | Swap => rw [ht] at hr; dsimp only at hr; cases hr; exact h
    | Srl => rw [ht] at hr; dsimp only at hr; cases hr; exact h
    | Bit => rw [ht] at hr; dsimp only at hr; cases hr; exact h
    | Res => rw [ht] at hr; dsimp only at hr; cases hr; exact h
    | Set => rw [ht] at hr; dsimp only at hr; cases hr; exact h

theorem step_run_f (cpu : Cpu) (bus : Bus) (dma : Dma)
    (h : cpu.regs.f &&& 15 = 0) :
    ∀ r ∈ Emulator.step_run cpu bus dma, r.1.regs.f &&& 15 = 0 := by
  intro r hr
  rw [Option.mem_def] at hr
  unfold Emulator.step_run at hr
  dsimp only at hr
  split at hr
  · cases hr
    simp [Cpu.take_t_cycles, Cpu.add_m_cycles,
      apply_ite (f := fun x : Cpu => x.regs),
      apply_ite (f := fun r : Registers => r.f), and15_ite, h]
  · split at hr
    · exact absurd hr (by simp)
    · rename_i cb he
      have h2 : ((cpu.fetch_instruction bus).fetch_data bus).regs.f &&& 15 = 0 := by
        rw [fetch_data_f, fetch_instruction_f]; exact h
      have hf := execute_f _ _ h2 cb (by rw [Option.mem_def]; exact he)
      split at hr <;> cases hr <;> simp [Cpu.take_t_cycles, hf]

theorem step_no_interrupt_f (cpu : Cpu) (bus : Bus) (dma : Dma)
    (h : cpu.regs.f &&& 15 = 0) :
    ∀ r ∈ Emulator.step_no_interrupt cpu bus dma, r.1.regs.f &&& 15 = 0 := by
  intro r hr
  unfold Emulator.step_no_interrupt at hr
  dsimp only at hr
  revert hr
  split <;> intro hr <;> exact step_run_f _ _ _ (by simp [h]) r hr

theorem step_cycles_f (cpu : Cpu) (bus : Bus) (dma : Dma)
    (h : cpu.regs.f &&& 15 = 0) :
    ∀ r ∈ Emulator.step_cycles cpu bus dma, r.1.regs.f &&& 15 = 0 := by
  intro r hr
  unfold Emulator.step_cycles at hr
  dsimp only at hr
  revert hr
  split <;> intro hr
  · rw [Option.mem_def] at hr
    cases hr
    simp [Cpu.take_t_cycles, Cpu.add_m_cycles, handle_interrupts_f,
      Cpu.reset_step_cycles, h]
  · refine step_no_interrupt_f _ _ _ ?_ r hr
    simp [handle_interrupts_f, Cpu.reset_step_cycles, h]

end Rgbe

namespace Rgbe

/-- C1: the spec's timing claim fails. On the concrete failing input — a
taken unconditional `JP 0x1234` at PC=0xC000, published cost 16 T-cycles
(4 M-cycles) — one driver step lands at PC=0x1234 but hands only 4
T-cycles to the peripherals: neither `fetch_instruction`, `fetch_data` nor
`proc_jp` charges the instruction's base cost, and `jump_to_if` adds only
its single taken-branch extra M-cycle. -/
theorem c1_taken_jp_ticks_4_t_cycles :
    (Emulator.step_cycles c1_cpu c1_bus Dma.new).map
      (fun r => (r.1.regs.pc, r.2.2.2)) = some (0x1234, 4) ∧ (4 : Nat) ≠ 16 :=
  ⟨rfl, by decide⟩

/-- C2: SBC with A=0x00, n=0xFF, incoming carry set leaves A=0x00 but
Z=false, although the 8-bit (mod 256) difference is zero — `proc_sbc`
tests the unmasked 16-bit `wrapping_sub` result, so the spec's "Z from the
8-bit difference" does not hold on this input. -/
theorem c2_sbc_zero_flag_from_unmasked_u16 :
    Registers.flag_c c2_cpu.regs = true ∧
    (c2_cpu.proc_sbc (instruction_by_opcode 0xDE)).regs.a = 0x00 ∧
    Registers.flag_z (c2_cpu.proc_sbc (instruction_by_opcode 0xDE)).regs = false ∧
    wsub8 (wsub8 c2_cpu.regs.a c2_cpu.fetched_data) 1 = 0 :=
  ⟨rfl, rfl, rfl, by decide⟩

/-- C3 counterexample: timer with TAC=0b101 (enabled, tap bit 3), internal
counter bit 3 set, TIMA=0x00. A DIV write zeroes the counter, but TIMA
stays 0x00 rather than becoming 0x01: `Timer::write` never consults the
falling-edge detector. -/
theorem c3_div_write_leaves_tima_unchanged :
    Timer.timer_enabled c3_timer = true ∧
    (c3_timer.div >>> 3) &&& 1 = 1 ∧
    (c3_timer.write 0xFF04 0xAB).div = 0 ∧
    (c3_timer.write 0xFF04 0xAB).tima = 0x00 ∧
    (c3_timer.write 0xFF04 0xAB).tima ≠ 0x01 := by
  refine ⟨rfl, rfl, rfl, rfl, ?_⟩
  decide

/-- C3 amended: writing any value to DIV zeroes the entire 16-bit internal
counter but runs no falling-edge detection as part of the write — TIMA,
TMA, TAC and the interrupt line are untouched for every timer state and
written value (the detector only runs inside `Timer::tick`). -/
theorem c3_div_write_zeroes_counter_only (t : Timer) (v : Nat) :
    (t.write 0xFF04 v).div = 0 ∧ (t.write 0xFF04 v).tima = t.tima ∧
    (t.write 0xFF04 v).tma = t.tma ∧ (t.write 0xFF04 v).tac = t.tac ∧
    (t.write 0xFF04 v).interrupt_requested = t.interrupt_requested := by
  simp [Timer.write]

end Rgbe

namespace Rgbe

theorem or_and_eq_of_and_eq_zero (v p m : Nat) (hp : p &&& m = 0) :
    (v ||| p) &&& m = v &&& m := by
  rw [Nat.and_comm (v ||| p) m, Nat.and_or_distrib_left, Nat.and_comm m p, hp,
    Nat.or_zero, Nat.and_comm m v]

theorem bit_set_two_and_three (s : Nat) (b : Bool) :
    bit_set s 2 b &&& 0x03 = s &&& 0x03 := by
  cases b
  · show (s &&& (0xFF ^^^ (1 <<< 2))) &&& 3 = s &&& 3
    rw [Nat.and_assoc, show ((0xFF ^^^ (1 <<< 2)) &&& 3) = 3 from by decide]
  · exact or_and_eq_of_and_eq_zero s (1 <<< 2) 3 (by decide)

theorem check_lyc_stat_and_three (l : Lcd) :
    (l.check_lyc).stat &&& 0x03 = l.stat &&& 0x03 := by
  unfold Lcd.check_lyc Lcd.set_lyc_flag
  dsimp only
  split <;> exact bit_set_two_and_three l.stat _

theorem check_lyc_ly (l : Lcd) : (l.check_lyc).ly = l.ly := by
  unfold Lcd.check_lyc Lcd.set_lyc_flag
  dsimp only
  split <;> rfl

theorem inc_ly_ly_le (l : Lcd) : (l.inc_ly).ly ≤ 153 := by
  unfold Lcd.inc_ly
  dsimp only
  rw [check_lyc_ly]
  split <;> dsimp only at * <;> omega

theorem inc_ly_stat_and_three (l : Lcd) :
    (l.inc_ly).stat &&& 0x03 = l.stat &&& 0x03 := by
  unfold Lcd.inc_ly
  dsimp only
  rw [check_lyc_stat_and_three]
  split <;> rfl

theorem inc_ly_mode (l : Lcd) : (l.inc_ly).mode = l.mode := by
  unfold Lcd.mode
  rw [inc_ly_stat_and_three]

/-- C8: the VBlank exit is dead code. `Lcd::inc_ly` wraps LY to 0 as soon
as it passes 153, so `mode_vblank`'s exit test `ly >= LINES_PER_FRAME`
(154) never holds and the machine never returns to mode 2 (OamScan): on
the concrete failing input — the final T-cycle of scanline 153 — LY wraps
to 0 but the mode stays VBlank, and in general every tick from VBlank with
the LCD enabled stays in VBlank. -/
theorem c8_vblank_exit_unreachable :
    ((Ppu.tick c8_ppu c8_lcd).2.ly = 0 ∧
     (Ppu.tick c8_ppu c8_lcd).2.mode = PpuMode.VBlank ∧
     PpuMode.VBlank ≠ PpuMode.OamScan) ∧
    (∀ (p : Ppu) (l : Lcd), l.lcd_enabled = true → l.mode = PpuMode.VBlank →
      (Ppu.tick p l).2.mode = PpuMode.VBlank) := by
  constructor
  · exact ⟨by decide, by decide, by decide⟩
  · intro p l he hm
    unfold Ppu.tick
    rw [if_neg (by simp [he])]
    dsimp only
    rw [hm]
    unfold Ppu.mode_vblank
    dsimp only
    split
    · rw [if_neg (show ¬(l.inc_ly.ly ≥ LINES_PER_FRAME) from by
        have := inc_ly_ly_le l
        unfold LINES_PER_FRAME
        omega)]
      dsimp only
      rw [inc_ly_mode]
      exact hm
    · exact hm

theorem c8_witness :
    Lcd.lcd_enabled c8_lcd = true ∧ Lcd.mode c8_lcd = PpuMode.VBlank ∧
    (Ppu.tick c8_ppu c8_lcd).2.mode = PpuMode.VBlank :=
  ⟨by decide, by decide,
   c8_vblank_exit_unreachable.2 c8_ppu c8_lcd (by decide) (by decide)⟩

end Rgbe

namespace Rgbe

theorem shiftLeft_eight_or_eq (a b : Nat) (h : b < 256) :
    (a <<< 8) ||| b = a * 256 + b := by
  rw [Nat.shiftLeft_eq, show (256:Nat) = 2^8 from rfl, Nat.mul_comm a (2^8)]
  apply Nat.eq_of_testBit_eq
  intro i
  rw [Nat.testBit_lor, Nat.testBit_mul_pow_two_add a h i, Nat.testBit_mul_pow_two]
  rcases Nat.lt_or_ge i 8 with hi | hi
  · simp [hi, Nat.not_le_of_lt hi]
  · have h2 : (256:Nat) ≤ 2 ^ i := by
      calc (256:Nat) = 2^8 := rfl
        _ ≤ 2^i := Nat.pow_le_pow_right (by norm_num) hi
    have hb : b.testBit i = false := Nat.testBit_lt_two_pow (lt_of_lt_of_le h h2)
    simp [hb, Nat.not_lt_of_le hi, hi]

theorem dma_tick_delay (d : Dma) (ha : d.active = true) (hd : 0 < d.delay) :
    d.tick = ({ d with delay := d.delay - 1 }, none) := by
  unfold Dma.tick
  rw [if_neg (by simp [ha]), if_pos hd]

theorem dma_tick_copy (d : Dma) (ha : d.active = true) (hd : d.delay = 0)
    (hb : d.byte < 160) :
    d.tick = ({ d with byte := d.byte + 1, active := decide (d.byte + 1 < 160) },
              some ((d.value <<< 8) ||| d.byte, 0xFE00 + d.byte)) := by
  obtain ⟨da, dbyte, dval, ddel⟩ := d
  dsimp only at ha hd hb ⊢
  subst ha hd
  unfold Dma.tick Dma.source_address Dma.dest_address
  rw [if_neg (by simp), if_neg (by dsimp only; omega)]
  dsimp only
  have hw : wadd8 dbyte 1 = dbyte + 1 := by unfold wadd8; omega
  rw [hw]
  by_cases h160 : dbyte + 1 ≥ 160
  · rw [if_pos h160, decide_eq_false (by omega)]
  · rw [if_neg h160, decide_eq_true (by omega)]

theorem emu_dma_tick_oam (d : Dma) (bus : Bus) (ha : d.active = true)
    (hd : d.delay = 0) (hb : d.byte < 160) :
    (Emulator.emu_dma_tick d bus).2.oam d.byte =
      bus.read ((d.value <<< 8) ||| d.byte) := by
  unfold Emulator.emu_dma_tick
  rw [dma_tick_copy d ha hd hb]
  dsimp only
  split <;> simp [Bus.set_dma_active]

set_option maxRecDepth 4096 in
theorem bus_oam_gate (b : Bus) (addr v : Nat) (h1 : b.dma_active = true)
    (h2 : 0xFE00 ≤ addr) (h3 : addr ≤ 0xFE9F) :
    b.read addr = 0xFF ∧ b.write addr v = b := by
  constructor
  · unfold Bus.read
    split_ifs <;> first | omega | rfl
  · unfold Bus.write
    split_ifs <;> first | omega | rfl

/-- C5: the OAM DMA engine. A write to the DMA register starts the engine
with the source page latched, byte index 0 and a 2 T-cycle delay; while
the delay is positive a tick only decrements it; past the delay each tick
copies one byte from (page<<8)+i — which for a byte-sized index equals
page*256+i — to 0xFE00+i, clearing the active flag when the index reaches
160; the driver's DMA slice writes exactly the byte read over the bus into
OAM; and while the bus DMA gate is raised, OAM reads return 0xFF and OAM
writes are dropped. -/
theorem c5_oam_dma :
    (∀ (d : Dma) (p : Nat),
       d.start p = { active := true, byte := 0, value := p, delay := 2 }) ∧
    (∀ d : Dma, d.active = true → 0 < d.delay →
       d.tick = ({ d with delay := d.delay - 1 }, none)) ∧
    (∀ d : Dma, d.active = true → d.delay = 0 → d.byte < 160 →
       d.tick = ({ d with byte := d.byte + 1, active := decide (d.byte + 1 < 160) },
                 some ((d.value <<< 8) ||| d.byte, 0xFE00 + d.byte))) ∧
    (∀ d : Dma, d.byte < 256 → d.source_address = d.value * 256 + d.byte) ∧
    (∀ (d : Dma) (bus : Bus), d.active = true → d.delay = 0 → d.byte < 160 →
       (Emulator.emu_dma_tick d bus).2.oam d.byte =
         bus.read ((d.value <<< 8) ||| d.byte)) ∧
    (∀ (b : Bus) (addr v : Nat), b.dma_active = true → 0xFE00 ≤ addr →
       addr ≤ 0xFE9F → b.read addr = 0xFF ∧ b.write addr v = b) :=
  ⟨fun _ _ => rfl, dma_tick_delay, dma_tick_copy,
   fun d h => shiftLeft_eight_or_eq d.value d.byte h, emu_dma_tick_oam, bus_oam_gate⟩

theorem c5_witness :
    Dma.new.start 0xC0 = { active := true, byte := 0, value := 0xC0, delay := 2 } ∧
    (c5_dma_delay.active = true ∧ 0 < c5_dma_delay.delay ∧
      c5_dma_delay.tick = ({ c5_dma_delay with delay := c5_dma_delay.delay - 1 }, none)) ∧
    (c5_dma_copy.active = true ∧ c5_dma_copy.delay = 0 ∧ c5_dma_copy.byte < 160 ∧
      c5_dma_copy.tick =
        ({ c5_dma_copy with byte := c5_dma_copy.byte + 1,
                            active := decide (c5_dma_copy.byte + 1 < 160) },
         some ((c5_dma_copy.value <<< 8) ||| c5_dma_copy.byte, 0xFE00 + c5_dma_copy.byte)) ∧
      c5_dma_copy.source_address = c5_dma_copy.value * 256 + c5_dma_copy.byte ∧
      (Emulator.emu_dma_tick c5_dma_copy c5_bus).2.oam c5_dma_copy.byte =
        c5_bus.read ((c5_dma_copy.value <<< 8) ||| c5_dma_copy.byte)) ∧
    (c5_bus.dma_active = true ∧ c5_bus.read 0xFE10 = 0xFF ∧
      c5_bus.write 0xFE10 0x12 = c5_bus) :=
  ⟨c5_oam_dma.1 Dma.new 0xC0,
   ⟨rfl, by decide, c5_oam_dma.2.1 c5_dma_delay rfl (by decide)⟩,
   ⟨rfl, rfl, by decide, c5_oam_dma.2.2.1 c5_dma_copy rfl rfl (by decide),
    c5_oam_dma.2.2.2.1 c5_dma_copy (by decide),
    c5_oam_dma.2.2.2.2.1 c5_dma_copy c5_bus rfl rfl (by decide)⟩,
   ⟨rfl, (c5_oam_dma.2.2.2.2.2 c5_bus 0xFE10 0x12 rfl (by decide) (by decide)).1,
    (c5_oam_dma.2.2.2.2.2 c5_bus 0xFE10 0x12 rfl (by decide) (by decide)).2⟩⟩

theorem bank_sel_ne_zero (bank count : Nat) (hc : 1 < count) :
    (if bank % count = 0 ∧ count > 1 then 1 else bank % count) ≠ 0 := by
  split
  · omega
  · rename_i h
    intro h0
    exact h ⟨h0, hc⟩

theorem mbc1_romx_bank_ne_zero (c : Cartridge) (hc : 1 < c.rom_bank_count) :
    c.mbc1_romx_bank ≠ 0 := by
  unfold Cartridge.mbc1_romx_bank
  dsimp only
  exact bank_sel_ne_zero _ _ hc

theorem mbc1_write_zero_requests_bank_one (c : Cartridge) (h1 : c.is_mbc1 = true) :
    (c.write 0x2000 0x00).rom_bank = 1 := by
  simp [Cartridge.write, h1]

theorem mbc1_read_after_zero_write (c : Cartridge) (h1 : c.is_mbc1 = true)
    (hmode : c.banking_mode = 0) (hram : c.ram_bank &&& 0x03 = 0)
    (hc : 1 < c.rom_bank_count) :
    Cartridge.read (c.write 0x2000 0x00) 0x4000 = c.romGet 0x4000 := by
  have hw : c.write 0x2000 0x00 = { c with rom_bank := 1 } := by
    simp [Cartridge.write, h1]
  have hbank : ({ c with rom_bank := 1 } : Cartridge).mbc1_romx_bank = 1 := by
    unfold Cartridge.mbc1_romx_bank
    dsimp only
    rw [show ({ c with rom_bank := 1 } : Cartridge).rom_bank_count = c.rom_bank_count
      from rfl]
    rw [hmode, if_pos rfl, hram]
    rw [show ((1:Nat) &&& 0x1F) ||| ((0:Nat) <<< 5) = 1 from by decide]
    rw [show (if ((1:Nat) &&& 0x1F = 0) then 1 + 1 else 1) = 1 from by decide]
    rw [Nat.mod_eq_of_lt hc]
    rw [ite_self]
  rw [hw]
  unfold Cartridge.read
  rw [if_neg (by norm_num), if_pos (by norm_num)]
  dsimp only
  rw [if_pos (show ({ c with rom_bank := 1 } : Cartridge).is_mbc1 = true from h1)]
  rw [hbank]
  simp [Cartridge.romGet]

/-- C4: the MBC1 0x4000-0x7FFF window never maps effective bank 0 when
more than one bank exists; writing 0x00 to the ROM-bank register stores
bank 1 (the low-5-bits-zero increment), and a subsequent read of 0x4000
comes from ROM bank 1 (offset 0x4000 of the ROM image). -/
theorem c4_mbc1_bank_zero_remap :
    (∀ c : Cartridge, 1 < c.rom_bank_count → c.mbc1_romx_bank ≠ 0) ∧
    (∀ c : Cartridge, c.is_mbc1 = true → (c.write 0x2000 0x00).rom_bank = 1) ∧
    (∀ c : Cartridge, c.is_mbc1 = true → c.banking_mode = 0 → c.ram_bank &&& 0x03 = 0 →
       1 < c.rom_bank_count →
       Cartridge.read (c.write 0x2000 0x00) 0x4000 = c.romGet 0x4000) :=
  ⟨mbc1_romx_bank_ne_zero, mbc1_write_zero_requests_bank_one, mbc1_read_after_zero_write⟩

theorem c4_witness :
    (1 < c4_cart.rom_bank_count ∧ c4_cart.mbc1_romx_bank ≠ 0) ∧
    (c4_cart.is_mbc1 = true ∧ (c4_cart.write 0x2000 0x00).rom_bank = 1) ∧
    (c4_cart.banking_mode = 0 ∧ c4_cart.ram_bank &&& 0x03 = 0 ∧
      Cartridge.read (c4_cart.write 0x2000 0x00) 0x4000 = c4_cart.romGet 0x4000) :=
  ⟨⟨by decide, c4_mbc1_bank_zero_remap.1 c4_cart (by decide)⟩,
   ⟨by decide, c4_mbc1_bank_zero_remap.2.1 c4_cart (by decide)⟩,
   ⟨by decide, by decide,
    c4_mbc1_bank_zero_remap.2.2 c4_cart (by decide) (by decide) (by decide) (by decide)⟩⟩

/-- C7: APU power control. Writing a value with bit 7 clear to NR52 while
the APU is powered replaces all four channel states with freshly
constructed ones, zeroes NR50/NR51 and drops power; while power is off,
every register write other than to NR52 itself or to wave RAM leaves the
APU unchanged. -/
theorem c7_apu_power_gating :
    (∀ (a : Apu) (v : Nat), a.enabled = true → v &&& 0x80 = 0 →
       ((a.write 0xFF26 v).ch1 = Channel1.new ∧ (a.write 0xFF26 v).ch2 = Channel2.new ∧
        (a.write 0xFF26 v).ch3 = Channel3.new ∧ (a.write 0xFF26 v).ch4 = Channel4.new ∧
        (a.write 0xFF26 v).nr50 = 0 ∧ (a.write 0xFF26 v).nr51 = 0 ∧
        (a.write 0xFF26 v).enabled = false)) ∧
    (∀ (a : Apu) (addr v : Nat), a.enabled = false → addr ≠ 0xFF26 →
       ¬(0xFF30 ≤ addr ∧ addr ≤ 0xFF3F) → a.write addr v = a) := by
  constructor
  · intro a v he hv
    refine ⟨?_, ?_, ?_, ?_, ?_, ?_, ?_⟩ <;> simp [Apu.write, he, hv]
  · intro a addr v he hne hw
    unfold Apu.write
    rw [if_pos ⟨by simp [he], hne, hw⟩]

theorem c7_witness :
    (Apu.new.enabled = true ∧ (0x00:Nat) &&& 0x80 = 0 ∧
      (Apu.new.write 0xFF26 0x00).ch1 = Channel1.new ∧
      (Apu.new.write 0xFF26 0x00).nr51 = 0 ∧
      (Apu.new.write 0xFF26 0x00).enabled = false) ∧
    (c7_apu.enabled = false ∧ (0xFF25:Nat) ≠ 0xFF26 ∧
      ¬((0xFF30:Nat) ≤ 0xFF25 ∧ (0xFF25:Nat) ≤ 0xFF3F) ∧
      Apu.write c7_apu 0xFF25 0x77 = c7_apu) :=
  ⟨⟨rfl, by decide, (c7_apu_power_gating.1 Apu.new 0x00 rfl (by decide)).1,
    (c7_apu_power_gating.1 Apu.new 0x00 rfl (by decide)).2.2.2.2.2.1,
    (c7_apu_power_gating.1 Apu.new 0x00 rfl (by decide)).2.2.2.2.2.2⟩,
   ⟨rfl, by decide, by decide,
    c7_apu_power_gating.2 c7_apu 0xFF25 0x77 rfl (by decide) (by decide)⟩⟩

/-- C10: the 16-bit helpers wrap the address increment, so a 16-bit write
at 0xFFFF stores the low byte in IE and routes the high byte to address
0x0000 — the MBC RAM-enable latch region, where an MBC cartridge latches
`ram_enabled` from the written nibble — and a 16-bit read at 0xFFFF
composes IE (low) with the byte at 0x0000 (high). -/
theorem c10_write16_at_ie_boundary :
    (∀ (b : Bus) (v : Nat),
       Bus.write16 b 0xFFFF v =
         Bus.write (Bus.write b 0xFFFF (v &&& 0xFF)) 0x0000 ((v >>> 8) &&& 0xFF)) ∧
    (∀ (b : Bus) (v : Nat), (Bus.write16 b 0xFFFF v).ie_register = v &&& 0xFF) ∧
    (∀ (b : Bus) (v : Nat) (c : Cartridge), b.cart = some c →
       (c.is_mbc1 = true ∨ c.is_mbc3 = true ∨ c.is_mbc5 = true) →
       (Bus.write16 b 0xFFFF v).cart =
         some { c with ram_enabled := ((v >>> 8) &&& 0x0F == 0x0A) }) ∧
    (∀ b : Bus, Bus.read16 b 0xFFFF = b.ie_register ||| (Bus.read b 0x0000 <<< 8)) := by
  have hie : ∀ (b : Bus) (v : Nat),
      Bus.write b 0xFFFF v = { b with ie_register := v } := by
    intro b v
    simp [Bus.write]
  refine ⟨fun _ _ => rfl, ?_, ?_, ?_⟩
  · intro b v
    unfold Bus.write16
    rw [show wadd16 0xFFFF 1 = 0 from rfl, hie]
    unfold Bus.write
    norm_num
    cases hcb : b.cart <;> simp [hcb]
  · intro b v c hc hm
    unfold Bus.write16
    rw [show wadd16 0xFFFF 1 = 0 from rfl, hie]
    unfold Bus.write
    norm_num
    rw [show ({ b with ie_register := v &&& 0xFF } : Bus).cart = b.cart from rfl, hc]
    dsimp only
    unfold Cartridge.write
    rw [if_pos (by norm_num), if_pos hm]
    rw [Nat.and_assoc, show ((0xFF:Nat) &&& 0x0F) = 0x0F from by decide]
  · intro b
    unfold Bus.read16
    rw [show wadd16 0xFFFF 1 = 0 from rfl,
      show Bus.read b 0xFFFF = b.ie_register from by simp [Bus.read]]

theorem c10_witness :
    (c10_bus.cart = some c4_cart ∧ c4_cart.is_mbc1 = true ∧
      (Bus.write16 c10_bus 0xFFFF 0x0A1F).cart =
        some { c4_cart with ram_enabled := (((0x0A1F:Nat) >>> 8) &&& 0x0F == 0x0A) } ∧
      (Bus.write16 c10_bus 0xFFFF 0x0A1F).ie_register = (0x0A1F:Nat) &&& 0xFF) ∧
    Bus.read16 c10_bus 0xFFFF = c10_bus.ie_register ||| (Bus.read c10_bus 0x0000 <<< 8) :=
  ⟨⟨rfl, by decide,
    c10_write16_at_ie_boundary.2.2.1 c10_bus 0x0A1F c4_cart rfl (Or.inl (by decide)),
    c10_write16_at_ie_boundary.2.1 c10_bus 0x0A1F⟩,
   c10_write16_at_ie_boundary.2.2.2 c10_bus⟩

end Rgbe

namespace Rgbe

theorem romGet_lt (c : Cartridge) (i : Nat) (h : ∀ j, c.rom j < 256) :
    c.romGet i < 256 := by
  unfold Cartridge.romGet
  split
  · exact h i
  · decide

theorem ramGet_lt (c : Cartridge) (i : Nat) (h : ∀ j, c.ram j < 256) :
    c.ramGet i < 256 := by
  unfold Cartridge.ramGet
  split
  · exact h i
  · decide

theorem cart_read_lt (c : Cartridge) (addr : Nat) (h : CartWf c) :
    c.read addr < 256 := by
  obtain ⟨h1, h2⟩ := h
  unfold Cartridge.read
  split_ifs <;>
    first
      | exact romGet_lt _ _ h1
      | exact ramGet_lt _ _ h2
      | omega

theorem wram_read_lt (r : Ram) (addr : Nat) (h : ∀ i, r.wram i < 256) :
    r.wram_read addr < 256 := by
  unfold Ram.wram_read
  dsimp only
  split
  · decide
  · exact h _

theorem hram_read_lt (r : Ram) (addr : Nat) (h : ∀ i, r.hram i < 256) :
    r.hram_read addr < 256 := by
  unfold Ram.hram_read
  dsimp only
  split
  · decide
  · exact h _

theorem bus_read_lt (b : Bus) (addr : Nat) (h : BusWf b) : b.read addr < 256 := by
  obtain ⟨hw, hh, hv, ho, hio, hie, hif, hc⟩ := h
  rw [Bus.read]
  by_cases h1 : addr ≤ 0x7FFF
  · rw [if_pos h1]
    rcases hq : b.cart with _ | c
    · exact (show (255:Nat) < 256 by decide)
    · exact cart_read_lt c addr (hc c hq)
  rw [if_neg h1]
  by_cases h2 : addr ≤ 0x9FFF
  · rw [if_pos h2]
    exact hv _
  rw [if_neg h2]
  by_cases h3 : addr ≤ 0xBFFF
  · rw [if_pos h3]
    rcases hq : b.cart with _ | c
    · exact (show (255:Nat) < 256 by decide)
    · exact cart_read_lt c addr (hc c hq)
  rw [if_neg h3]
  by_cases h4 : addr ≤ 0xDFFF
  · rw [if_pos h4]
    exact wram_read_lt _ _ hw
  rw [if_neg h4]
  by_cases h5 : addr ≤ 0xFDFF
  · rw [if_pos h5]
    exact wram_read_lt _ _ hw
  rw [if_neg h5]
  by_cases h6 : addr ≤ 0xFE9F
  · rw [if_pos h6]
    by_cases hdma : b.dma_active = true
    · rw [if_pos hdma]
      decide
    · rw [if_neg hdma]
      exact ho _
  rw [if_neg h6]
  by_cases h7 : addr ≤ 0xFEFF
  · rw [if_pos h7]
    decide
  rw [if_neg h7]
  by_cases h8 : addr ≤ 0xFF7F
  · rw [if_pos h8]
    by_cases h9 : addr = 0xFF0F
    · rw [if_pos h9]
      exact Nat.or_lt_two_pow (show b.int_flags < 2^8 from hif)
        (show (0xE0:Nat) < 2^8 by norm_num)
    · rw [if_neg h9]
      exact hio _
  rw [if_neg h8]
  by_cases h10 : addr ≤ 0xFFFE
  · rw [if_pos h10]
    exact hram_read_lt _ _ hh
  rw [if_neg h10]
  exact hie

theorem wram_write_wram_lt (r : Ram) (addr v : Nat) (hv : v < 256)
    (hw : ∀ i, r.wram i < 256) :
    ∀ i, (r.wram_write addr v).wram i < 256 := by
  intro i
  rw [Ram.wram_write]
  split
  · dsimp only
    split
    · exact hv
    · exact hw i
  · exact hw i

theorem wram_write_hram_lt (r : Ram) (addr v : Nat) (hh : ∀ i, r.hram i < 256) :
    ∀ i, (r.wram_write addr v).hram i < 256 := by
  intro i
  rw [Ram.wram_write]
  split
  · exact hh i
  · exact hh i

theorem hram_write_hram_lt (r : Ram) (addr v : Nat) (hv : v < 256)
    (hh : ∀ i, r.hram i < 256) :
    ∀ i, (r.hram_write addr v).hram i < 256 := by
  intro i
  rw [Ram.hram_write]
  split
  · dsimp only
    split
    · exact hv
    · exact hh i
  · exact hh i

theorem hram_write_wram_lt (r : Ram) (addr v : Nat) (hw : ∀ i, r.wram i < 256) :
    ∀ i, (r.hram_write addr v).wram i < 256 := by
  intro i
  rw [Ram.hram_write]
  split
  · exact hw i
  · exact hw i

theorem cart_ram_region_wf (c : Cartridge) (off v : Nat) (hv : v < 256)
    (h1 : ∀ i, c.rom i < 256) (h2 : ∀ i, c.ram i < 256) :
    CartWf (if off < c.ram_len then
      { c with ram := fun i => if i = off then v else c.ram i, need_save := true }
    else c) := by
  split
  · refine ⟨h1, fun i => ?_⟩
    dsimp only
    split
    · exact hv
    · exact h2 i
  · exact ⟨h1, h2⟩

theorem cart_write_wf (c : Cartridge) (addr v : Nat) (hv : v < 256) (h : CartWf c) :
    CartWf (c.write addr v) := by
  obtain ⟨h1, h2⟩ := h
  rw [Cartridge.write]
  by_cases k1 : addr ≤ 0x1FFF
  · rw [if_pos k1]
    split_ifs <;> exact ⟨h1, h2⟩
  rw [if_neg k1]
  by_cases k2 : addr ≤ 0x3FFF
  · rw [if_pos k2]
    split_ifs <;> exact ⟨h1, h2⟩
  rw [if_neg k2]
  by_cases k3 : addr ≤ 0x5FFF
  · rw [if_pos k3]
    split_ifs <;> exact ⟨h1, h2⟩
  rw [if_neg k3]
  by_cases k4 : addr ≤ 0x7FFF
  · rw [if_pos k4]
    split_ifs <;> exact ⟨h1, h2⟩
  rw [if_neg k4]
  by_cases k5 : 0xA000 ≤ addr ∧ addr ≤ 0xBFFF
  · rw [if_pos k5]
    by_cases k6 : ¬(c.ram_enabled = true) ∨ c.ram_len = 0
    · rw [if_pos k6]
      exact ⟨h1, h2⟩
    · rw [if_neg k6]
      exact cart_ram_region_wf c _ v hv h1 h2
  rw [if_neg k5]
  exact ⟨h1, h2⟩

theorem ite_update_lt (f : Nat → Nat) (k v : Nat) (hv : v < 256)
    (hf : ∀ i, f i < 256) :
    ∀ i, (if i = k then v else f i) < 256 := by
  intro i
  split
  · exact hv
  · exact hf i

theorem busWf_intro (ram : Ram) (ie intf : Nat) (cart : Option Cartridge)
    (vram oam io : Nat → Nat) (d : Bool) (iw : Nat → Bool)
    (h1 : ∀ i, ram.wram i < 256) (h2 : ∀ i, ram.hram i < 256)
    (h3 : ∀ i, vram i < 256) (h4 : ∀ i, oam i < 256) (h5 : ∀ i, io i < 256)
    (h6 : ie < 256) (h7 : intf < 256) (h8 : ∀ c, cart = some c → CartWf c) :
    BusWf { ram := ram, ie_register := ie, int_flags := intf, cart := cart,
            vram := vram, oam := oam, io_regs := io, dma_active := d,
            io_written := iw } :=
  ⟨h1, h2, h3, h4, h5, h6, h7, h8⟩

theorem bus_write_wf (b : Bus) (addr v : Nat) (hv : v < 256) (h : BusWf b) :
    BusWf (b.write addr v) := by
  obtain ⟨hw, hh, hvr, ho, hio, hie, hif, hc⟩ := h
  rw [Bus.write]
  by_cases h1 : addr ≤ 0x7FFF
  · rw [if_pos h1]
    rcases hq : b.cart with _ | c
    · exact busWf_intro _ _ _ _ _ _ _ _ _ hw hh hvr ho hio hie hif hc
    · exact busWf_intro _ _ _ _ _ _ _ _ _ hw hh hvr ho hio hie hif
        (fun c2 he => by
          injection he with he2
          exact he2 ▸ cart_write_wf c addr v hv (hc c hq))
  rw [if_neg h1]
  by_cases h2 : addr ≤ 0x9FFF
  · rw [if_pos h2]
    exact busWf_intro _ _ _ _ _ _ _ _ _ hw hh
      (ite_update_lt b.vram (addr - 0x8000) v hv hvr) ho hio hie hif hc
  rw [if_neg h2]
  by_cases h3 : addr ≤ 0xBFFF
  · rw [if_pos h3]
    rcases hq : b.cart with _ | c
    · exact busWf_intro _ _ _ _ _ _ _ _ _ hw hh hvr ho hio hie hif hc
    · exact busWf_intro _ _ _ _ _ _ _ _ _ hw hh hvr ho hio hie hif
        (fun c2 he => by
          injection he with he2
          exact he2 ▸ cart_write_wf c addr v hv (hc c hq))
  rw [if_neg h3]
  by_cases h4 : addr ≤ 0xDFFF
  · rw [if_pos h4]
    exact busWf_intro _ _ _ _ _ _ _ _ _
      (wram_write_wram_lt b.ram addr v hv hw) (wram_write_hram_lt b.ram addr v hh)
      hvr ho hio hie hif hc
  rw [if_neg h4]
  by_cases h5 : addr ≤ 0xFDFF
  · rw [if_pos h5]
    exact busWf_intro _ _ _ _ _ _ _ _ _
      (wram_write_wram_lt b.ram (addr - 0x2000) v hv hw)
      (wram_write_hram_lt b.ram (addr - 0x2000) v hh)
      hvr ho hio hie hif hc
  rw [if_neg h5]
  by_cases h6 : addr ≤ 0xFE9F
  · rw [if_pos h6]
    by_cases hdma : b.dma_active = true
    · rw [if_neg (show ¬¬(b.dma_active = true) from not_not_intro hdma)]
      exact busWf_intro _ _ _ _ _ _ _ _ _ hw hh hvr ho hio hie hif hc
    · rw [if_pos hdma]
      exact busWf_intro _ _ _ _ _ _ _ _ _ hw hh hvr
        (ite_update_lt b.oam (addr - 0xFE00) v hv ho) hio hie hif hc
  rw [if_neg h6]
  by_cases h7 : addr ≤ 0xFEFF
  · rw [if_pos h7]
    exact busWf_intro _ _ _ _ _ _ _ _ _ hw hh hvr ho hio hie hif hc
  rw [if_neg h7]
  by_cases h8 : addr ≤ 0xFF7F
  · rw [if_pos h8]
    by_cases h9 : addr = 0xFF0F
    · rw [if_pos h9]
      exact busWf_intro _ _ _ _ _ _ _ _ _ hw hh hvr ho hio hie hv hc
    · rw [if_neg h9]
      exact busWf_intro _ _ _ _ _ _ _ _ _ hw hh hvr ho
        (ite_update_lt b.io_regs (addr - 0xFF00) v hv hio) hie hif hc
  rw [if_neg h8]
  by_cases h10 : addr ≤ 0xFFFE
  · rw [if_pos h10]
    exact busWf_intro _ _ _ _ _ _ _ _ _
      (hram_write_wram_lt b.ram addr v hw) (hram_write_hram_lt b.ram addr v hv hh)
      hvr ho hio hie hif hc
  rw [if_neg h10]
  exact busWf_intro _ _ _ _ _ _ _ _ _ hw hh hvr ho hio hv hif hc

theorem bus_no_cart (b : Bus) (addr : Nat) (hq : b.cart = none)
    (hr : addr ≤ 0x7FFF ∨ (0xA000 ≤ addr ∧ addr ≤ 0xBFFF)) :
    b.read addr = 0xFF ∧ ∀ v, b.write addr v = b := by
  constructor
  · rw [Bus.read]
    rcases hr with hr | hr
    · rw [if_pos hr, hq]
    · rw [if_neg (by omega), if_neg (by omega), if_pos (by omega), hq]
  · intro v
    rw [Bus.write]
    rcases hr with hr | hr
    · rw [if_pos hr, hq]
    · rw [if_neg (by omega), if_neg (by omega), if_pos (by omega), hq]

theorem bus_unmapped (b : Bus) (addr : Nat) (h1 : 0xFEA0 ≤ addr) (h2 : addr ≤ 0xFEFF) :
    b.read addr = 0xFF ∧ ∀ v, b.write addr v = b := by
  constructor
  · rw [Bus.read]
    rw [if_neg (by omega), if_neg (by omega), if_neg (by omega), if_neg (by omega),
      if_neg (by omega), if_neg (by omega), if_pos (by omega)]
  · intro v
    rw [Bus.write]
    rw [if_neg (by omega), if_neg (by omega), if_neg (by omega), if_neg (by omega),
      if_neg (by omega), if_neg (by omega), if_pos (by omega)]

theorem cart_ram_unavailable (c : Cartridge) (addr v : Nat)
    (h : c.ram_enabled = false ∨ c.ram_len = 0)
    (h1 : 0xA000 ≤ addr) (h2 : addr ≤ 0xBFFF) :
    c.read addr = 0xFF ∧ c.write addr v = c := by
  have hcond : ¬(c.ram_enabled = true) ∨ c.ram_len = 0 := by
    rcases h with h | h
    · left
      simp [h]
    · right
      exact h
  constructor
  · unfold Cartridge.read
    rw [if_neg (by omega), if_neg (by omega), if_pos ⟨h1, h2⟩, if_pos hcond]
  · unfold Cartridge.write
    rw [if_neg (by omega), if_neg (by omega), if_neg (by omega), if_neg (by omega),
      if_pos ⟨h1, h2⟩, if_pos hcond]

theorem romGet_past_end (c : Cartridge) (i : Nat) (h : c.rom_len ≤ i) :
    c.romGet i = 0xFF := by
  unfold Cartridge.romGet
  rw [if_neg (by omega)]

theorem ramGet_past_end (c : Cartridge) (i : Nat) (h : c.ram_len ≤ i) :
    c.ramGet i = 0xFF := by
  unfold Cartridge.ramGet
  rw [if_neg (by omega)]

/-- C9: no bus access ever faults. Under the `u8` well-formedness carried
by the Rust types, every read returns a byte and every byte-sized write
preserves well-formedness; with no cartridge the ROM and cartridge-RAM
windows read 0xFF and drop writes; the unmapped 0xFEA0-0xFEFF region reads
0xFF and drops writes; with cartridge RAM disabled or absent the RAM
window reads 0xFF and drops writes; and ROM/RAM offsets past the end of
the backing vector read 0xFF (`get(..).unwrap_or(0xFF)`). -/
theorem c9_bus_never_faults :
    (∀ (b : Bus) (addr : Nat), BusWf b → b.read addr < 256) ∧
    (∀ (b : Bus) (addr v : Nat), BusWf b → v < 256 → BusWf (b.write addr v)) ∧
    (∀ (b : Bus) (addr : Nat), b.cart = none →
       (addr ≤ 0x7FFF ∨ (0xA000 ≤ addr ∧ addr ≤ 0xBFFF)) →
       b.read addr = 0xFF ∧ ∀ v, b.write addr v = b) ∧
    (∀ (b : Bus) (addr : Nat), 0xFEA0 ≤ addr → addr ≤ 0xFEFF →
       b.read addr = 0xFF ∧ ∀ v, b.write addr v = b) ∧
    (∀ (c : Cartridge) (addr v : Nat), c.ram_enabled = false ∨ c.ram_len = 0 →
       0xA000 ≤ addr → addr ≤ 0xBFFF → c.read addr = 0xFF ∧ c.write addr v = c) ∧
    (∀ (c : Cartridge) (i : Nat), c.rom_len ≤ i → c.romGet i = 0xFF) ∧
    (∀ (c : Cartridge) (i : Nat), c.ram_len ≤ i → c.ramGet i = 0xFF) :=
  ⟨bus_read_lt,
   fun b addr v hwf hv => bus_write_wf b addr v hv hwf,
   bus_no_cart, bus_unmapped, cart_ram_unavailable, romGet_past_end, ramGet_past_end⟩

theorem c9_witness :
    (BusWf c9_bus ∧ Bus.read c9_bus 0x1234 < 256 ∧
      BusWf (Bus.write c9_bus 0xC000 0x12)) ∧
    (c9_bus.cart = none ∧ Bus.read c9_bus 0x1234 = 0xFF ∧
      Bus.write c9_bus 0x1234 0x56 = c9_bus) ∧
    (Bus.read c9_bus 0xFEA5 = 0xFF ∧ Bus.write c9_bus 0xFEA5 0x56 = c9_bus) ∧
    (c4_cart.ram_enabled = false ∧ Cartridge.read c4_cart 0xA000 = 0xFF ∧
      Cartridge.write c4_cart 0xA000 0x99 = c4_cart) ∧
    (c4_cart.rom_len ≤ 0x9000 ∧ c4_cart.romGet 0x9000 = 0xFF) ∧
    (c4_cart.ram_len ≤ 0 ∧ c4_cart.ramGet 0 = 0xFF) :=
  have hwf : BusWf c9_bus :=
    ⟨fun _ => (show (0:Nat) < 256 by decide), fun _ => (show (0:Nat) < 256 by decide),
     fun _ => (show (0:Nat) < 256 by decide), fun _ => (show (0:Nat) < 256 by decide),
     fun _ => (show (0:Nat) < 256 by decide), by decide, by decide,
     fun c hc => Option.noConfusion hc⟩
  ⟨⟨hwf, c9_bus_never_faults.1 c9_bus 0x1234 hwf,
    c9_bus_never_faults.2.1 c9_bus 0xC000 0x12 hwf (by decide)⟩,
   ⟨rfl, (c9_bus_never_faults.2.2.1 c9_bus 0x1234 rfl (Or.inl (by decide))).1,
    (c9_bus_never_faults.2.2.1 c9_bus 0x1234 rfl (Or.inl (by decide))).2 0x56⟩,
   ⟨(c9_bus_never_faults.2.2.2.1 c9_bus 0xFEA5 (by decide) (by decide)).1,
    (c9_bus_never_faults.2.2.2.1 c9_bus 0xFEA5 (by decide) (by decide)).2 0x56⟩,
   ⟨rfl, (c9_bus_never_faults.2.2.2.2.1 c4_cart 0xA000 0x99 (Or.inl rfl) (by decide)
      (by decide)).1,
    (c9_bus_never_faults.2.2.2.2.1 c4_cart 0xA000 0x99 (Or.inl rfl) (by decide)
      (by decide)).2⟩,
   ⟨by decide, c9_bus_never_faults.2.2.2.2.2.1 c4_cart 0x9000 (by decide)⟩,
   ⟨by decide, c9_bus_never_faults.2.2.2.2.2.2 c4_cart 0 (by decide)⟩⟩

end Rgbe

namespace Rgbe

theorem proc_pop_af_f_low (c : Cpu) (b : Bus) (inst : Instruction)
    (h : inst.reg1 = RegisterType.Af) :
    (c.proc_pop b inst).1.regs.f &&& 0x0F = 0 := by
  unfold Cpu.proc_pop
  dsimp only
  rw [if_pos h]
  exact and_f0_and15 _

theorem step_cycles_f_getD (cpu : Cpu) (bus : Bus) (dma : Dma)
    (h : cpu.regs.f &&& 0x0F = 0) :
    ((Emulator.step_cycles cpu bus dma).map
      (fun r => r.1.regs.f &&& 0x0F)).getD 0 = 0 := by
  rcases hs : Emulator.step_cycles cpu bus dma with _ | r
  · rfl
  · exact step_cycles_f cpu bus dma h r (Option.mem_def.mpr hs)

/-- C6: the low nibble of the flag register F is always zero. Every write
path to F masks with 0xF0 (`set_af`, `write_reg`/`write_reg8` targeting F,
the extra mask after `POP AF`), the individual flag setters touch only
bits 4-7, the post-boot state has F = 0xB0, and one full driver step
(`Emulator::step`'s CPU slice) preserves the invariant from any state
satisfying it. -/
theorem c6_flag_low_nibble_zero :
    (∀ (r : Registers) (v : Nat), (r.set_af v).f &&& 0x0F = 0) ∧
    (∀ (c : Cpu) (v : Nat), (c.write_reg RegisterType.F v).regs.f &&& 0x0F = 0) ∧
    (∀ (c : Cpu) (v : Nat), (c.write_reg8 RegisterType.F v).regs.f &&& 0x0F = 0) ∧
    (∀ (c : Cpu) (b : Bus) (inst : Instruction), inst.reg1 = RegisterType.Af →
       (c.proc_pop b inst).1.regs.f &&& 0x0F = 0) ∧
    (∀ (r : Registers) (v : Bool),
       (r.set_flag_z v).f &&& 0x0F = r.f &&& 0x0F ∧
       (r.set_flag_n v).f &&& 0x0F = r.f &&& 0x0F ∧
       (r.set_flag_h v).f &&& 0x0F = r.f &&& 0x0F ∧
       (r.set_flag_c v).f &&& 0x0F = r.f &&& 0x0F) ∧
    (∀ c : Cpu, (c.init).regs.f &&& 0x0F = 0) ∧
    (∀ (cpu : Cpu) (bus : Bus) (dma : Dma), cpu.regs.f &&& 0x0F = 0 →
       ((Emulator.step_cycles cpu bus dma).map
         (fun r => r.1.regs.f &&& 0x0F)).getD 0 = 0) :=
  ⟨set_af_f_and15,
   fun c v => and_f0_and15 v,
   fun c v => and_f0_and15 v,
   proc_pop_af_f_low,
   fun r v => ⟨set_flag_z_f_and15 r v, set_flag_n_f_and15 r v,
     set_flag_h_f_and15 r v, set_flag_c_f_and15 r v⟩,
   fun c => and_f0_and15 0x01B0,
   step_cycles_f_getD⟩

theorem c6_witness :
    (Registers.set_af Registers.new 0xABCD).f &&& 0x0F = 0 ∧
    (Cpu.write_reg Cpu.new RegisterType.F 0xFF).regs.f &&& 0x0F = 0 ∧
    (Cpu.write_reg8 Cpu.new RegisterType.F 0xFF).regs.f &&& 0x0F = 0 ∧
    ((instruction_by_opcode 0xF1).reg1 = RegisterType.Af ∧
      (Cpu.proc_pop Cpu.new c6_bus (instruction_by_opcode 0xF1)).1.regs.f &&& 0x0F = 0) ∧
    (Registers.set_flag_z { Registers.new with f := 0xB0 } true).f &&& 0x0F =
      ({ Registers.new with f := 0xB0 } : Registers).f &&& 0x0F ∧
    (Cpu.init Cpu.new).regs.f &&& 0x0F = 0 ∧
    (c6_cpu.regs.f &&& 0x0F = 0 ∧
      ((Emulator.step_cycles c6_cpu c6_bus Dma.new).map
        (fun r => r.1.regs.f &&& 0x0F)).getD 0 = 0) :=
  ⟨c6_flag_low_nibble_zero.1 Registers.new 0xABCD,
   c6_flag_low_nibble_zero.2.1 Cpu.new 0xFF,
   c6_flag_low_nibble_zero.2.2.1 Cpu.new 0xFF,
   ⟨by decide, c6_flag_low_nibble_zero.2.2.2.1 Cpu.new c6_bus
      (instruction_by_opcode 0xF1) (by decide)⟩,
   (c6_flag_low_nibble_zero.2.2.2.2.1 { Registers.new with f := 0xB0 } true).1,
   c6_flag_low_nibble_zero.2.2.2.2.2.1 Cpu.new,
   ⟨by decide, c6_flag_low_nibble_zero.2.2.2.2.2.2 c6_cpu c6_bus Dma.new (by decide)⟩⟩

end Rgbe
